import Mathlib

/-!
# LocalsApp

A shallow embedding of the location-sharing application:

* `src/frontend/locais.js`: the client-side filter engine (`applyFilters`);
* `src/backend/server.js`: the vote handlers, the favorites handlers and the
  `auth` middleware, over an in-memory picture of the two collections.

JavaScript numbers that carry coordinates and distances are kept abstract (a type
parameter `Num`). The filter takes the distance function and the `<=` comparison
as arguments, so that every statement about it holds for whatever the
floating-point operations compute; `calculateDistance` itself is written over the
operations of `JsMath`, and what is proved of it names the facts of double
arithmetic it rests on. Vote counters are modelled as natural numbers. A route
parameter is the string of the URL; the cast of such a string to an ObjectId, which
fails on a string that is not a well-formed id, is an argument of the handlers.
-/

set_option autoImplicit false

namespace LocalsApp

/-! ## Data model -/

/-- Identifier of a stored document (a Mongo ObjectId), kept as an opaque number. -/
abbrev ObjectId := Nat

/-- A document of the Location collection (`locationSchema`), which is also the
shape of the objects the client receives from `GET /locations`. -/
structure Location (Num : Type) where
  _id : ObjectId
  src : String
  title : String
  description : String
  typeicon : String
  types : List String
  latitude : Num
  longitude : Num
  url : String
  likes : Nat
  dislikes : Nat
  deriving DecidableEq, Repr

/-! ## Client filter engine (`src/frontend/locais.js`) -/

/-- Whether the character list `s` begins with `p`. -/
def startsWithChars : List Char → List Char → Bool
  | _, [] => true
  | [], _ :: _ => false
  | c :: cs, p :: ps => c == p && startsWithChars cs ps

/-- Whether `sub` occurs somewhere inside `s`. -/
def includesChars : List Char → List Char → Bool
  | [], sub => sub.isEmpty
  | c :: cs, sub => startsWithChars (c :: cs) sub || includesChars cs sub

/-- The method `String.prototype.includes`. -/
def strIncludes (s sub : String) : Bool :=
  includesChars s.toList sub.toList

/-- The five category checkboxes of the page. -/
inductive Category where
  | Cultura
  | Natureza
  | Praia
  | Trilho
  | Merendas
  deriving DecidableEq, Repr, Fintype

/-- The string each category checkbox looks for in `typeicon`. -/
def Category.name : Category → String
  | .Cultura => "Cultura"
  | .Natureza => "Natureza"
  | .Praia => "Praia"
  | .Trilho => "Trilho"
  | .Merendas => "Merendas"

/-- The controls `applyFilters` reads: the five category checkboxes, the amenity
checkbox and the distance slider (its value as the number `<=` coerces it to). -/
structure FilterControls (Num : Type) where
  checkCultura : Bool
  checkNatureza : Bool
  checkPraia : Bool
  checkTrilho : Bool
  checkMerendas : Bool
  campingnaturezaCheckbox : Bool
  distanceSlider : Num

/-- The `checked` property of the checkbox of a category. -/
def FilterControls.checked {Num : Type} (c : FilterControls Num) : Category → Bool
  | .Cultura => c.checkCultura
  | .Natureza => c.checkNatureza
  | .Praia => c.checkPraia
  | .Trilho => c.checkTrilho
  | .Merendas => c.checkMerendas

/-- The position `getCurrentLocation` resolves to. -/
structure UserLocation (Num : Type) where
  latitude : Num
  longitude : Num

/-- What `applyFilters` writes: the closure variable `filteredLocations` (which is
also what it hands to the map and to the grid) and the text of `filterTitle`. -/
structure FilterView (Num : Type) where
  filteredLocations : List (Location Num)
  filterTitle : String

/-- The function `applyFilters` of `filterLocations`. `calculateDistance` is the
haversine function of the same file and `le` is the comparison `<=` on numbers;
`view` is the state left by the previous run. -/
def applyFilters {Num : Type} (calculateDistance : Num → Num → Num → Num → Num)
    (le : Num → Num → Bool) (locations : List (Location Num))
    (userLocation : UserLocation Num) (controls : FilterControls Num)
    (view : FilterView Num) : FilterView Num :=
  -- Reset filteredLocations to original locations array
  let view := { view with filteredLocations := locations }
  -- Filter based on checked checkboxes
  let view :=
    if controls.checkCultura then
      { filteredLocations :=
          view.filteredLocations.filter (fun location => strIncludes location.typeicon "Cultura"),
        filterTitle := "Cultura" }
    else if controls.checkNatureza then
      { filteredLocations :=
          view.filteredLocations.filter (fun location => strIncludes location.typeicon "Natureza"),
        filterTitle := "Natureza" }
    else if controls.checkPraia then
      { filteredLocations :=
          view.filteredLocations.filter (fun location => strIncludes location.typeicon "Praia"),
        filterTitle := "Praia" }
    else if controls.checkTrilho then
      { filteredLocations :=
          view.filteredLocations.filter (fun location => strIncludes location.typeicon "Trilho"),
        filterTitle := "Trilho" }
    else if controls.checkMerendas then
      { filteredLocations :=
          view.filteredLocations.filter (fun location => strIncludes location.typeicon "Merendas"),
        filterTitle := "Merendas" }
    else
      { view with filterTitle := "Locais" }
  -- The source comments this step "Filter based on Merendas checkbox"; the checkbox
  -- it tests is campingnaturezaCheckbox, and it keeps the locations with "WC"
  let view :=
    if controls.campingnaturezaCheckbox then
      { view with
        filteredLocations :=
          view.filteredLocations.filter (fun location => location.types.contains "WC") }
    else view
  -- Filter based on distance slider value
  let updatedDistanceValue := controls.distanceSlider
  { view with
    filteredLocations :=
      view.filteredLocations.filter (fun location =>
        le (calculateDistance userLocation.latitude userLocation.longitude
              location.latitude location.longitude) updatedDistanceValue) }

/-- The category stage of `applyFilters`, on its own. -/
def categoryStage {Num : Type} (controls : FilterControls Num)
    (filteredLocations : List (Location Num)) : List (Location Num) :=
  if controls.checkCultura then
    filteredLocations.filter (fun location => strIncludes location.typeicon "Cultura")
  else if controls.checkNatureza then
    filteredLocations.filter (fun location => strIncludes location.typeicon "Natureza")
  else if controls.checkPraia then
    filteredLocations.filter (fun location => strIncludes location.typeicon "Praia")
  else if controls.checkTrilho then
    filteredLocations.filter (fun location => strIncludes location.typeicon "Trilho")
  else if controls.checkMerendas then
    filteredLocations.filter (fun location => strIncludes location.typeicon "Merendas")
  else filteredLocations

/-- The amenity stage of `applyFilters`, on its own. -/
def amenityStage {Num : Type} (controls : FilterControls Num)
    (filteredLocations : List (Location Num)) : List (Location Num) :=
  if controls.campingnaturezaCheckbox then
    filteredLocations.filter (fun location => location.types.contains "WC")
  else filteredLocations

/-- The distance stage of `applyFilters`, on its own. -/
def distanceStage {Num : Type} (calculateDistance : Num → Num → Num → Num → Num)
    (le : Num → Num → Bool) (userLocation : UserLocation Num)
    (controls : FilterControls Num)
    (filteredLocations : List (Location Num)) : List (Location Num) :=
  filteredLocations.filter (fun location =>
    le (calculateDistance userLocation.latitude userLocation.longitude
          location.latitude location.longitude) controls.distanceSlider)

/-- At most one category checkbox is checked. -/
def atMostOneCategory {Num : Type} (c : FilterControls Num) : Prop :=
  ∀ a b : Category, c.checked a = true → c.checked b = true → a = b

/-- The three conditions a location has to meet: (a) no category is selected or
`typeicon` contains the name of a selected one, (b) the amenity flag is off or
`types` includes "WC", (c) the distance from the origin is `<=` the maximum. -/
def passesCriteria {Num : Type} (calculateDistance : Num → Num → Num → Num → Num)
    (le : Num → Num → Bool) (userLocation : UserLocation Num)
    (c : FilterControls Num) (l : Location Num) : Bool :=
  (decide (∀ k : Category, c.checked k = false) ||
    decide (∃ k : Category, c.checked k = true ∧ strIncludes l.typeicon k.name = true)) &&
  (!c.campingnaturezaCheckbox || l.types.contains "WC") &&
  le (calculateDistance userLocation.latitude userLocation.longitude
        l.latitude l.longitude) c.distanceSlider

/-! ### Sample data for the filter engine -/

/-- A stand-in distance on natural-number coordinates, used for examples. -/
def sampleDistance (lat1 lon1 lat2 lon2 : Nat) : Nat :=
  (lat2 - lat1) + (lon2 - lon1)

/-- Comparison `<=` on natural numbers, as a boolean. -/
def sampleLe (a b : Nat) : Bool := decide (a ≤ b)

/-- Location A: a Cultura place, 10 away from the origin. -/
def sampleA : Location Nat :=
  { _id := 1, src := "a.jpg", title := "A", description := "", typeicon := "Cultura",
    types := ["Cultura"], latitude := 10, longitude := 0, url := "", likes := 3, dislikes := 1 }

/-- Location B: a Natureza place, 5 away from the origin. -/
def sampleB : Location Nat :=
  { _id := 2, src := "b.jpg", title := "B", description := "", typeicon := "Natureza",
    types := ["Natureza", "WC"], latitude := 5, longitude := 0, url := "", likes := 0,
    dislikes := 0 }

/-- The origin of the examples. -/
def sampleOrigin : UserLocation Nat := { latitude := 0, longitude := 0 }

/-- Category Cultura selected, amenity off, maximum distance `d`. -/
def culturaWithin (d : Nat) : FilterControls Nat :=
  { checkCultura := true, checkNatureza := false, checkPraia := false, checkTrilho := false,
    checkMerendas := false, campingnaturezaCheckbox := false, distanceSlider := d }

/-- A view left over from some earlier run. -/
def staleView : FilterView Nat := { filteredLocations := [sampleB, sampleB], filterTitle := "Praia" }

/-! ### Great-circle distance (`calculateDistance`) -/

/-- The operations `calculateDistance` applies to JavaScript numbers: the arithmetic
operators, the functions and the constant of `Math`, the numeric literals and the
comparison `<=`. They are IEEE-754 double operations (the results of `Math.sin`,
`Math.cos` and `Math.atan2` are left to the platform), so they are taken as given. -/
structure JsMath (Num : Type) where
  add : Num → Num → Num
  sub : Num → Num → Num
  mul : Num → Num → Num
  div : Num → Num → Num
  sin : Num → Num
  cos : Num → Num
  sqrt : Num → Num
  atan2 : Num → Num → Num
  PI : Num
  lit : Nat → Num
  le : Num → Num → Bool

/-- The function `calculateDistance` (haversine formula, Earth radius 6371 km). -/
def calculateDistance {Num : Type} (m : JsMath Num) (lat1 lon1 lat2 lon2 : Num) : Num :=
  let R := m.lit 6371
  let dLat := m.div (m.mul (m.sub lat2 lat1) m.PI) (m.lit 180)
  let dLon := m.div (m.mul (m.sub lon2 lon1) m.PI) (m.lit 180)
  let a :=
    m.add (m.mul (m.sin (m.div dLat (m.lit 2))) (m.sin (m.div dLat (m.lit 2))))
      (m.mul
        (m.mul
          (m.mul (m.cos (m.div (m.mul lat1 m.PI) (m.lit 180)))
            (m.cos (m.div (m.mul lat2 m.PI) (m.lit 180))))
          (m.sin (m.div dLon (m.lit 2))))
        (m.sin (m.div dLon (m.lit 2))))
  let c := m.mul (m.lit 2) (m.atan2 (m.sqrt a) (m.sqrt (m.sub (m.lit 1) a)))
  let distance := m.mul R c
  distance

/-- The value of the local constant `a` of `calculateDistance`. -/
def haversineTerm {Num : Type} (m : JsMath Num) (lat1 lon1 lat2 lon2 : Num) : Num :=
  let dLat := m.div (m.mul (m.sub lat2 lat1) m.PI) (m.lit 180)
  let dLon := m.div (m.mul (m.sub lon2 lon1) m.PI) (m.lit 180)
  m.add (m.mul (m.sin (m.div dLat (m.lit 2))) (m.sin (m.div dLat (m.lit 2))))
    (m.mul
      (m.mul
        (m.mul (m.cos (m.div (m.mul lat1 m.PI) (m.lit 180)))
          (m.cos (m.div (m.mul lat2 m.PI) (m.lit 180))))
        (m.sin (m.div dLon (m.lit 2))))
      (m.sin (m.div dLon (m.lit 2))))

/-- The sign symmetries of double arithmetic, with `neg` the negation of a number:
a difference of two different numbers changes sign when they are swapped,
multiplication commutes, negation passes through products and quotients, `Math.sin`
is odd, and negating twice gives the number back. -/
structure SignSymmetric {Num : Type} (m : JsMath Num) (neg : Num → Num) : Prop where
  sub_swap : ∀ a b, a ≠ b → m.sub a b = neg (m.sub b a)
  mul_comm : ∀ a b, m.mul a b = m.mul b a
  neg_mul : ∀ a b, m.mul (neg a) b = neg (m.mul a b)
  neg_div : ∀ a b, m.div (neg a) b = neg (m.div a b)
  sin_neg : ∀ a, m.sin (neg a) = neg (m.sin a)
  neg_neg : ∀ a, neg (neg a) = a

/-- The exact special values of double arithmetic that `calculateDistance` meets on
two equal points; `finite` holds of the numbers of bounded size, among them every
valid coordinate and its value in radians. -/
structure ExactValues {Num : Type} (m : JsMath Num) (finite : Num → Prop) : Prop where
  sub_self : ∀ a, finite a → m.sub a a = m.lit 0
  finite_radians : ∀ a, finite a → finite (m.div (m.mul a m.PI) (m.lit 180))
  zero_mul_PI : m.mul (m.lit 0) m.PI = m.lit 0
  zero_div : ∀ n, 0 < n → m.div (m.lit 0) (m.lit n) = m.lit 0
  sin_zero : m.sin (m.lit 0) = m.lit 0
  cos_sq_mul_zero : ∀ x, finite x → m.mul (m.mul (m.cos x) (m.cos x)) (m.lit 0) = m.lit 0
  lit_mul_zero : ∀ n, m.mul (m.lit n) (m.lit 0) = m.lit 0
  zero_add_zero : m.add (m.lit 0) (m.lit 0) = m.lit 0
  sqrt_zero : m.sqrt (m.lit 0) = m.lit 0
  one_sub_zero : m.sub (m.lit 1) (m.lit 0) = m.lit 1
  sqrt_one : m.sqrt (m.lit 1) = m.lit 1
  atan2_zero_one : m.atan2 (m.lit 0) (m.lit 1) = m.lit 0

/-- How the value `nan` (NaN) propagates: through `Math.atan2`, through a product,
and every comparison with it is false. -/
structure NaNPropagates {Num : Type} (m : JsMath Num) (nan : Num) : Prop where
  atan2_nan : ∀ y, m.atan2 y nan = nan
  mul_nan : ∀ x, m.mul x nan = nan
  le_nan : ∀ x, m.le x nan = false

/-- Lift a binary operation on rationals to numbers that may be NaN (`none`). -/
def liftNumber (f : ℚ → ℚ → ℚ) : Option ℚ → Option ℚ → Option ℚ
  | some a, some b => some (f a b)
  | _, _ => none

/-- A small exact arithmetic with a NaN, for examples: rationals, with the identity
for `sin`, the constant 1 for `cos`, the identity on non-negative numbers for
`sqrt` (NaN on a negative one) and the first argument for `atan2`. -/
def sampleMath : JsMath (Option ℚ) :=
  { add := liftNumber (fun a b => a + b),
    sub := liftNumber (fun a b => a - b),
    mul := liftNumber (fun a b => a * b),
    div := liftNumber (fun a b => a / b),
    sin := fun a => a,
    cos := fun a => a.map (fun _ => 1),
    sqrt := fun a => a.bind (fun x => if 0 ≤ x then some x else none),
    atan2 := liftNumber (fun y _ => y),
    PI := some 3,
    lit := fun n => some n,
    le := fun a b =>
      match a, b with
      | some x, some y => decide (x ≤ y)
      | _, _ => false }

/-- Negation in the sample arithmetic. -/
def sampleNeg (a : Option ℚ) : Option ℚ := a.map (fun x => -x)

/-! ## Backend (`src/backend/server.js`) -/

/-- A document of the User collection (`userSchema`). -/
structure User where
  _id : ObjectId
  name : String
  email : String
  password : String
  favorites : List ObjectId
  deriving DecidableEq, Repr

/-- The two collections of the database. -/
structure Db (Num : Type) where
  locations : List (Location Num)
  users : List User

/-- The payload `jwt.verify` yields for a token made by `generateAuthToken`. -/
structure JwtPayload where
  _id : ObjectId
  deriving DecidableEq, Repr

/-- What a handler sends back. -/
inductive Body (Num : Type) where
  | message (text : String)
  | text (text : String)
  | votes (likes dislikes : Nat)
  | locations (docs : List (Location Num))
  | token (token : String)
  | redirect (path : String)
  deriving DecidableEq, Repr

/-- An HTTP response: status code and body. -/
structure Response (Num : Type) where
  status : Nat
  body : Body Num
  deriving DecidableEq, Repr

/-- Update the first element that satisfies `p`, as an `updateOne` does. -/
def updateFirst {α : Type} (p : α → Bool) (f : α → α) : List α → List α
  | [] => []
  | a :: as => if p a then f a :: as else a :: updateFirst p f as

/-- The query `Location.findById`. -/
def findLocationById {Num : Type} (locations : List (Location Num)) (id : ObjectId) :
    Option (Location Num) :=
  locations.find? (fun d => d._id == id)

/-- The query `User.findById`. -/
def findUserById (users : List User) (id : ObjectId) : Option User :=
  users.find? (fun d => d._id == id)

/-- The call `location.save()` after `likes` was modified: the stored document with
this `_id` gets the new value of `likes`. -/
def saveLikes {Num : Type} (locations : List (Location Num)) (location : Location Num) :
    List (Location Num) :=
  updateFirst (fun d => d._id == location._id) (fun d => { d with likes := location.likes })
    locations

/-- The call `location.save()` after `dislikes` was modified. -/
def saveDislikes {Num : Type} (locations : List (Location Num)) (location : Location Num) :
    List (Location Num) :=
  updateFirst (fun d => d._id == location._id)
    (fun d => { d with dislikes := location.dislikes }) locations

/-- The call `user.save()` after `favorites.push(id)`: the push is sent as a `$push`,
which appends `id` to the stored array of the user (the password is not modified,
so the `pre("save")` hook leaves it alone). -/
def savePush (users : List User) (userId id : ObjectId) : List User :=
  updateFirst (fun d => d._id == userId) (fun d => { d with favorites := d.favorites ++ [id] })
    users

/-- The call `user.save()` after `favorites.pull(id)`: the pull is sent as a
`$pullAll`, which removes every occurrence of `id` from the stored array. -/
def savePull (users : List User) (userId id : ObjectId) : List User :=
  updateFirst (fun d => d._id == userId)
    (fun d => { d with favorites := d.favorites.filter (fun f => f != id) }) users

/-- The handler of `POST /locations/:locationId/like`, run from start to end with no
other request in between (`likeTaskStep` splits it at its `await`s). The route
parameter is the string of the URL; `castObjectId` is the cast `findById` applies
to it, which yields the id or throws a CastError with a message, caught by the
handler. -/
def likeHandler {Num : Type} (castObjectId : String → Except String ObjectId) (db : Db Num)
    (locationId : String) : Response Num × Db Num :=
  match castObjectId locationId with
  | .error message => ({ status := 500, body := .message message }, db)
  | .ok id =>
    match findLocationById db.locations id with
    | none => ({ status := 404, body := .message "Location not found" }, db)
    | some location =>
      let location := { location with likes := location.likes + 1 }
      let db := { db with locations := saveLikes db.locations location }
      ({ status := 200, body := .votes location.likes location.dislikes }, db)

/-- The handler of `POST /locations/:locationId/dislike`. -/
def dislikeHandler {Num : Type} (castObjectId : String → Except String ObjectId) (db : Db Num)
    (locationId : String) : Response Num × Db Num :=
  match castObjectId locationId with
  | .error message => ({ status := 500, body := .message message }, db)
  | .ok id =>
    match findLocationById db.locations id with
    | none => ({ status := 404, body := .message "Location not found" }, db)
    | some location =>
      let location := { location with dislikes := location.dislikes + 1 }
      let db := { db with locations := saveDislikes db.locations location }
      ({ status := 200, body := .votes location.likes location.dislikes }, db)

/-- The handler of `POST /favorites/:locationId`, after `auth` has set `req.user`,
run from start to end with no other request in between (`addFavoriteTaskStep`
splits it at its `await`s). `idEquals` is the comparison the array method
`includes` applies between the route parameter and a stored id; `push` casts the
parameter and throws on a string that is not a well-formed id, which the handler
answers with 500. -/
def addFavoriteHandler {Num : Type} (castObjectId : String → Except String ObjectId)
    (idEquals : String → ObjectId → Bool) (db : Db Num) (userId : ObjectId)
    (locationId : String) : Response Num × Db Num :=
  match findUserById db.users userId with
  | none => ({ status := 404, body := .text "User not found" }, db)
  | some user =>
    if user.favorites.any (fun f => idEquals locationId f) then
      ({ status := 400, body := .text "Location already in favorites" }, db)
    else
      match castObjectId locationId with
      | .error _ => ({ status := 500, body := .text "Internal Server Error" }, db)
      | .ok id =>
        let db := { db with users := savePush db.users user._id id }
        ({ status := 200, body := .message "Location saved to favorites" }, db)

/-- The handler of `DELETE /favorites/:locationId`, after `auth` has set `req.user`;
`pull` casts the parameter (throwing on a string that is not a well-formed id) and
removes every occurrence of the id. -/
def removeFavoriteHandler {Num : Type} (castObjectId : String → Except String ObjectId)
    (db : Db Num) (userId : ObjectId) (locationId : String) : Response Num × Db Num :=
  match findUserById db.users userId with
  | none => ({ status := 404, body := .text "User not found" }, db)
  | some user =>
    match castObjectId locationId with
    | .error _ => ({ status := 500, body := .text "Internal Server Error" }, db)
    | .ok id =>
      let db := { db with users := savePull db.users user._id id }
      ({ status := 200, body := .message "Location removed from favorites" }, db)

/-- The handler of `GET /favorites`, after `auth`: `populate` resolves each favorite
to its Location document and drops the ones it does not find. -/
def listFavoritesHandler {Num : Type} (db : Db Num) (userId : ObjectId) :
    Response Num × Db Num :=
  match findUserById db.users userId with
  | none => ({ status := 404, body := .text "User not found" }, db)
  | some user =>
    ({ status := 200, body := .locations (user.favorites.filterMap (findLocationById db.locations)) },
      db)

/-- The handler of `GET /locations`. -/
def getLocationsHandler {Num : Type} (db : Db Num) : Response Num × Db Num :=
  ({ status := 200, body := .locations db.locations }, db)

/-! ### The `auth` middleware -/

/-- The method `split(" ")` on the characters of a string. -/
def splitOnSpace : List Char → List (List Char)
  | [] => [[]]
  | c :: cs =>
    if c = ' ' then [] :: splitOnSpace cs
    else
      match splitOnSpace cs with
      | [] => [[c]]
      | w :: ws => (c :: w) :: ws

/-- The expression `authHeader && authHeader.split(" ")[1]`; `none` stands for a
value that is `undefined` or the empty header. -/
def headerToken (authHeader : Option String) : Option String :=
  match authHeader with
  | none => none
  | some authHeader =>
    if authHeader = "" then none
    else ((splitOnSpace authHeader.toList).get? 1).map String.mk

/-- What `auth` does with a request: it either sends a response itself or calls
`next()` with `req.user` set. -/
inductive AuthOutcome where
  | respond (status : Nat) (text : String)
  | next (user : JwtPayload)
  deriving DecidableEq, Repr

/-- The middleware `auth`; `verify` is `jwt.verify` with the server secret, `none`
standing for the error case (bad signature or expired). -/
def auth (verify : String → Option JwtPayload) (authHeader : Option String) : AuthOutcome :=
  match headerToken authHeader with
  | none => .respond 401 "Unauthorized"
  | some token =>
    if token = "" then .respond 401 "Unauthorized"
    else
      match verify token with
      | none => .respond 403 "Forbidden"
      | some user => .next user

/-- The bearer token of a header as the interface describes it: the header reads
`Bearer <token>` with a non-empty token. -/
def bearerTokenOf (authHeader : Option String) : Option String :=
  match authHeader with
  | none => none
  | some h =>
    if startsWithChars h.toList "Bearer ".toList && decide (7 < h.length) then
      some (String.mk (h.toList.drop 7))
    else none

/-- The text between the first and the second space of the header (empty when the
header is absent or has no space), whatever precedes the first space. -/
def secondField (authHeader : Option String) : String :=
  match authHeader with
  | none => ""
  | some h =>
    String.mk (((h.toList.dropWhile (fun c => c != ' ')).drop 1).takeWhile (fun c => c != ' '))

/-- A verifier that accepts exactly the token "abc", for user 10. -/
def sampleVerify (token : String) : Option JwtPayload :=
  if token = "abc" then some { _id := 10 } else none

/-- The value of a string of decimal digits, if it is one. -/
def digitsValue : List Char → Nat → Option Nat
  | [], acc => some acc
  | c :: cs, acc => if c.isDigit then digitsValue cs (10 * acc + (c.toNat - 48)) else none

/-- A sample cast: the well-formed ids are the non-empty strings of decimal digits. -/
def sampleCast (s : String) : Except String ObjectId :=
  match s.toList with
  | [] => .error "Cast to ObjectId failed"
  | c :: cs =>
    match digitsValue (c :: cs) 0 with
    | some n => .ok n
    | none => .error ("Cast to ObjectId failed for value " ++ s)

/-- A sample comparison for `includes`: the string is the stored id. -/
def sampleIdEquals (s : String) (id : ObjectId) : Bool :=
  match sampleCast s with
  | .ok n => n == id
  | .error _ => false

/-! ### The API as a whole -/

/-- The library primitives the handlers call: password hashing (`bcrypt.genSalt`
and `bcrypt.hash`), `bcrypt.compare`, `jwt.sign` for a user id, `jwt.verify`, the
id a new User document receives, the cast of a route parameter to an ObjectId and
the comparison `includes` applies between a route parameter and a stored id. -/
structure Env where
  hash : String → String
  compare : String → String → Bool
  sign : ObjectId → String
  verify : String → Option JwtPayload
  newId : List User → ObjectId
  castObjectId : String → Except String ObjectId
  idEquals : String → ObjectId → Bool

/-- The query `User.findOne({ email })`. -/
def findUserByEmail (users : List User) (email : String) : Option User :=
  users.find? (fun u => u.email == email)

/-- The handler of `POST /register`. Saving validates the required fields (an empty
string does not pass) and then runs the `pre("save")` hook, which hashes the
password of a new document; a failure is answered with 500. -/
def registerHandler {Num : Type} (env : Env) (db : Db Num) (name email password : String) :
    Response Num × Db Num :=
  match findUserByEmail db.users email with
  | some _ =>
    ({ status := 400, body := .message "Email already exists. Please choose another." }, db)
  | none =>
    let newUser : User :=
      { _id := env.newId db.users, name := name, email := email, password := password,
        favorites := [] }
    if newUser.name = "" ∨ newUser.email = "" ∨ newUser.password = "" then
      ({ status := 500, body := .message "Failed to register user. Please try again later." },
        db)
    else
      let newUser := { newUser with password := env.hash newUser.password }
      ({ status := 302, body := .redirect "/login" },
        { db with users := db.users ++ [newUser] })

/-- The handler of `POST /login`. -/
def loginHandler {Num : Type} (env : Env) (db : Db Num) (email password : String) :
    Response Num × Db Num :=
  match findUserByEmail db.users email with
  | none => ({ status := 404, body := .message "User not found." }, db)
  | some user =>
    let isMatch := env.compare password user.password
    if !isMatch then ({ status := 400, body := .message "Invalid credentials." }, db)
    else ({ status := 200, body := .token (env.sign user._id) }, db)

/-- A route behind `auth`: the middleware answers itself or hands the user id of the
verified token to the handler. -/
def withAuth {Num : Type} (env : Env) (authHeader : Option String) (db : Db Num)
    (handler : ObjectId → Response Num × Db Num) : Response Num × Db Num :=
  match auth env.verify authHeader with
  | .respond status text => ({ status := status, body := .text text }, db)
  | .next user => handler user._id

/-- The requests the API serves (the static pages apart). -/
inductive ApiRequest where
  | getLocations
  | like (locationId : String)
  | dislike (locationId : String)
  | register (name email password : String)
  | login (email password : String)
  | listFavorites (authHeader : Option String)
  | addFavorite (authHeader : Option String) (locationId : String)
  | removeFavorite (authHeader : Option String) (locationId : String)

/-- The route table of `server.js`. -/
def apiStep {Num : Type} (env : Env) (db : Db Num) : ApiRequest → Response Num × Db Num
  | .getLocations => getLocationsHandler db
  | .like locationId => likeHandler env.castObjectId db locationId
  | .dislike locationId => dislikeHandler env.castObjectId db locationId
  | .register name email password => registerHandler env db name email password
  | .login email password => loginHandler env db email password
  | .listFavorites authHeader =>
    withAuth env authHeader db (fun userId => listFavoritesHandler db userId)
  | .addFavorite authHeader locationId =>
    withAuth env authHeader db (fun userId =>
      addFavoriteHandler env.castObjectId env.idEquals db userId locationId)
  | .removeFavorite authHeader locationId =>
    withAuth env authHeader db (fun userId =>
      removeFavoriteHandler env.castObjectId db userId locationId)

/-- The database after a sequence of requests, served one after another. -/
def runApi {Num : Type} (env : Env) (db : Db Num) : List ApiRequest → Db Num
  | [] => db
  | r :: rs => runApi env (apiStep env db r).2 rs

/-- Every favorites entry of every user references a stored Location. -/
def favoritesResolve {Num : Type} (db : Db Num) : Prop :=
  ∀ u ∈ db.users, ∀ f ∈ u.favorites, (findLocationById db.locations f).isSome = true

/-- Sample primitives: a tagging hash, its comparison, and the sample verifier. -/
def sampleEnv : Env :=
  { hash := fun p => "hashed:" ++ p,
    compare := fun p h => h == "hashed:" ++ p,
    sign := fun id => if id = 10 then "abc" else "",
    verify := sampleVerify,
    newId := fun users => users.length + 100,
    castObjectId := sampleCast,
    idEquals := sampleIdEquals }

/-! ### Concurrent like requests -/

/-- How far one like request has got. The handler gives up control at its two
`await`s, so it runs as two atomic pieces: the read (`findById`, followed by
`likes += 1` on the copy it got) and the write (`save`). -/
inductive LikeTask (Num : Type) where
  | start (locationId : String)
  | loaded (location : Location Num)
  | done (response : Response Num)
  deriving DecidableEq, Repr

/-- The next atomic piece of a like request against the stored locations. -/
def likeTaskStep {Num : Type} (castObjectId : String → Except String ObjectId)
    (locations : List (Location Num)) : LikeTask Num → LikeTask Num × List (Location Num)
  | .start locationId =>
    match castObjectId locationId with
    | .error message => (.done { status := 500, body := .message message }, locations)
    | .ok id =>
      match findLocationById locations id with
      | none => (.done { status := 404, body := .message "Location not found" }, locations)
      | some location => (.loaded { location with likes := location.likes + 1 }, locations)
  | .loaded location =>
    (.done { status := 200, body := .votes location.likes location.dislikes },
      saveLikes locations location)
  | .done response => (.done response, locations)

/-- Let request number `i` run its next piece. -/
def stepAt {Num : Type} (castObjectId : String → Except String ObjectId) :
    Nat → List (LikeTask Num) → List (Location Num) → List (LikeTask Num) × List (Location Num)
  | _, [], locations => ([], locations)
  | 0, t :: ts, locations =>
    ((likeTaskStep castObjectId locations t).1 :: ts, (likeTaskStep castObjectId locations t).2)
  | i + 1, t :: ts, locations =>
    (t :: (stepAt castObjectId i ts locations).1, (stepAt castObjectId i ts locations).2)

/-- Run an interleaving, given as the list of request numbers in the order in which
they get to run a piece. -/
def runSchedule {Num : Type} (castObjectId : String → Except String ObjectId) :
    List Nat → List (LikeTask Num) → List (Location Num) →
      List (LikeTask Num) × List (Location Num)
  | [], tasks, locations => (tasks, locations)
  | i :: rest, tasks, locations =>
    runSchedule castObjectId rest (stepAt castObjectId i tasks locations).1
      (stepAt castObjectId i tasks locations).2

/-- Whether a request has sent its response. -/
def LikeTask.isDone {Num : Type} : LikeTask Num → Bool
  | .done _ => true
  | _ => false

/-- The list of `n` like requests for the same location, none started yet. -/
def likeRequests (Num : Type) (n : Nat) (locationId : String) : List (LikeTask Num) :=
  List.replicate n (.start locationId)

/-- The database after `n` like requests served one after another. -/
def likeTimes {Num : Type} (castObjectId : String → Except String ObjectId)
    (locationId : String) : Nat → Db Num → Db Num
  | 0, db => db
  | n + 1, db => likeTimes castObjectId locationId n (likeHandler castObjectId db locationId).2

/-- How far one add-favorite request has got. The handler gives up control at its
two `await`s: the read (`User.findById`, followed by the `includes` test and the
`push` on the copy it got) and the write (`save`, which sends the push). -/
inductive AddFavoriteTask (Num : Type) where
  | start (userId : ObjectId) (locationId : String)
  | pushed (userId : ObjectId) (id : ObjectId)
  | done (response : Response Num)
  deriving DecidableEq, Repr

/-- The next atomic piece of an add-favorite request against the stored users. -/
def addFavoriteTaskStep {Num : Type} (castObjectId : String → Except String ObjectId)
    (idEquals : String → ObjectId → Bool) (users : List User) :
    AddFavoriteTask Num → AddFavoriteTask Num × List User
  | .start userId locationId =>
    match findUserById users userId with
    | none => (.done { status := 404, body := .text "User not found" }, users)
    | some user =>
      if user.favorites.any (fun f => idEquals locationId f) then
        (.done { status := 400, body := .text "Location already in favorites" }, users)
      else
        match castObjectId locationId with
        | .error _ => (.done { status := 500, body := .text "Internal Server Error" }, users)
        | .ok id => (.pushed user._id id, users)
  | .pushed userId id =>
    (.done { status := 200, body := .message "Location saved to favorites" },
      savePush users userId id)
  | .done response => (.done response, users)

/-- Let add-favorite request number `i` run its next piece. -/
def addFavoriteStepAt {Num : Type} (castObjectId : String → Except String ObjectId)
    (idEquals : String → ObjectId → Bool) :
    Nat → List (AddFavoriteTask Num) → List User → List (AddFavoriteTask Num) × List User
  | _, [], users => ([], users)
  | 0, t :: ts, users =>
    ((addFavoriteTaskStep castObjectId idEquals users t).1 :: ts,
      (addFavoriteTaskStep castObjectId idEquals users t).2)
  | i + 1, t :: ts, users =>
    (t :: (addFavoriteStepAt castObjectId idEquals i ts users).1,
      (addFavoriteStepAt castObjectId idEquals i ts users).2)

/-- Run an interleaving of add-favorite requests. -/
def runAddFavoriteSchedule {Num : Type} (castObjectId : String → Except String ObjectId)
    (idEquals : String → ObjectId → Bool) :
    List Nat → List (AddFavoriteTask Num) → List User → List (AddFavoriteTask Num) × List User
  | [], tasks, users => (tasks, users)
  | i :: rest, tasks, users =>
    runAddFavoriteSchedule castObjectId idEquals rest
      (addFavoriteStepAt castObjectId idEquals i tasks users).1
      (addFavoriteStepAt castObjectId idEquals i tasks users).2

/-- The route parameter is a well-formed id in the form in which `includes`
matches it with the stored id: it casts to `id`, and `includes` finds it equal to
a stored id exactly when that id is `id`. -/
def namesId (castObjectId : String → Except String ObjectId)
    (idEquals : String → ObjectId → Bool) (locationId : String) (id : ObjectId) : Prop :=
  castObjectId locationId = .ok id ∧ ∀ f, idEquals locationId f = true ↔ f = id

/-- The interleaving in which the requests run one after another: request 0 reads
and writes, then request 1, and so on. -/
def serialFrom : Nat → Nat → List Nat
  | _, 0 => []
  | i, n + 1 => i :: i :: serialFrom (i + 1) n

/-- The serial interleaving of `n` requests. -/
def serialSchedule (n : Nat) : List Nat := serialFrom 0 n

/-- What holds of one pending like request for location `id` when `w` requests have
written, in a race that started from `likes0` likes and `dislikes0` dislikes. -/
def likeTaskOk {Num : Type} (castObjectId : String → Except String ObjectId) (id : ObjectId)
    (likes0 dislikes0 w : Nat) : LikeTask Num → Prop
  | .start locationId => castObjectId locationId = .ok id
  | .loaded location =>
    location._id = id ∧ location.dislikes = dislikes0 ∧ likes0 + 1 ≤ location.likes ∧
      location.likes ≤ likes0 + w + 1
  | .done _ => True

/-- What holds of the stored location `id` and of the requests during an
interleaving of like requests. -/
def likeRaceInv {Num : Type} (castObjectId : String → Except String ObjectId) (id : ObjectId)
    (likes0 dislikes0 : Nat) (tasks : List (LikeTask Num)) (locations : List (Location Num)) :
    Prop :=
  (∃ d, findLocationById locations id = some d ∧ d.dislikes = dislikes0 ∧
      likes0 ≤ d.likes ∧ d.likes ≤ likes0 + tasks.countP LikeTask.isDone ∧
      (1 ≤ tasks.countP LikeTask.isDone → likes0 + 1 ≤ d.likes)) ∧
    ∀ t ∈ tasks, likeTaskOk castObjectId id likes0 dislikes0 (tasks.countP LikeTask.isDone) t

/-! ### Vocabulary for the statements about the stores -/

/-- Every stored location whose id is not `id` is the same document, at the same
position, before and after; the collection has the same size and the users are
untouched. -/
def othersUnchanged {Num : Type} (id : ObjectId) (before after : Db Num) : Prop :=
  after.users = before.users ∧
    after.locations.length = before.locations.length ∧
    ∀ (i : Nat) (d : Location Num),
      before.locations.get? i = some d → d._id ≠ id → after.locations.get? i = some d

/-- No stored location loses likes or dislikes between `before` and `after`. -/
def countersNotDecreased {Num : Type} (before after : Db Num) : Prop :=
  ∀ (j : ObjectId) (d : Location Num), findLocationById before.locations j = some d →
    ∃ d', findLocationById after.locations j = some d' ∧
      d.likes ≤ d'.likes ∧ d.dislikes ≤ d'.dislikes

/-- A database with the two sample locations and one user. -/
def sampleDb : Db Nat :=
  { locations := [sampleA, sampleB],
    users := [{ _id := 10, name := "Ana", email := "ana@example.org", password := "$2a$10$h",
                favorites := [2] }] }

/-! ### Vocabulary and sample data for the account handlers -/

/-- No two stored users share an email (the `unique: true` index of `userSchema`). -/
def emailsUnique (users : List User) : Prop :=
  ∀ u ∈ users, ∀ v ∈ users, u.email = v.email → u = v

/-- A registered user whose stored password is the sample hash of "pw". -/
def sampleAna : User :=
  { _id := 10, name := "Ana", email := "ana@example.org", password := "hashed:pw",
    favorites := [2] }

/-- A database holding the sample locations and the registered sample user. -/
def accountDb : Db Nat :=
  { locations := [sampleA, sampleB], users := [sampleAna] }

/-! ## Theorems: filter engine -/

theorem category_forall_iff (P : Category → Prop) :
    (∀ k, P k) ↔ P .Cultura ∧ P .Natureza ∧ P .Praia ∧ P .Trilho ∧ P .Merendas :=
  ⟨fun h => ⟨h _, h _, h _, h _, h _⟩, fun ⟨a, b, c, d, e⟩ k => by cases k <;> assumption⟩

theorem category_exists_iff (P : Category → Prop) :
    (∃ k, P k) ↔ P .Cultura ∨ P .Natureza ∨ P .Praia ∨ P .Trilho ∨ P .Merendas := by
  constructor
  · rintro ⟨k, hk⟩
    cases k <;> simp [hk]
  · rintro (h | h | h | h | h) <;> exact ⟨_, h⟩

/-- The list `applyFilters` leaves in `filteredLocations` is the three stages run in
the order category, amenity, distance on the full list. -/
theorem applyFilters_eq_stages {Num : Type} (cd : Num → Num → Num → Num → Num)
    (le : Num → Num → Bool) (locations : List (Location Num)) (u : UserLocation Num)
    (c : FilterControls Num) (view : FilterView Num) :
    (applyFilters cd le locations u c view).filteredLocations =
      distanceStage cd le u c (amenityStage c (categoryStage c locations)) := by
  unfold applyFilters distanceStage amenityStage categoryStage
  split_ifs <;> rfl

theorem stages_eq_filter {Num : Type} (cd : Num → Num → Num → Num → Num)
    (le : Num → Num → Bool) (locations : List (Location Num)) (u : UserLocation Num)
    (c : FilterControls Num) (h : atMostOneCategory c) :
    distanceStage cd le u c (amenityStage c (categoryStage c locations)) =
      locations.filter (passesCriteria cd le u c) := by
  obtain ⟨c1, c2, c3, c4, c5, am, d⟩ := c
  have h12 := h .Cultura .Natureza
  have h13 := h .Cultura .Praia
  have h14 := h .Cultura .Trilho
  have h15 := h .Cultura .Merendas
  have h23 := h .Natureza .Praia
  have h24 := h .Natureza .Trilho
  have h25 := h .Natureza .Merendas
  have h34 := h .Praia .Trilho
  have h35 := h .Praia .Merendas
  have h45 := h .Trilho .Merendas
  cases c1 <;> cases c2 <;> cases c3 <;> cases c4 <;> cases c5 <;> cases am <;>
    simp [FilterControls.checked] at h12 h13 h14 h15 h23 h24 h25 h34 h35 h45 <;>
    simp only [distanceStage, amenityStage, categoryStage, List.filter_filter, if_true,
      if_false, Bool.false_eq_true] <;>
    refine congrArg (fun p => List.filter p locations) (funext fun l => ?_) <;>
    simp [passesCriteria, category_forall_iff, category_exists_iff, FilterControls.checked,
      Category.name, Bool.and_comm, Bool.and_assoc, Bool.and_left_comm]

/-- C1: for every list of locations, origin and criteria with at most one category
selected, the list `applyFilters` computes is the input list filtered (same order,
same multiplicities) by the conjunction of the category, amenity and inclusive
distance conditions, and it does not depend on the previously filtered list. -/
theorem applyFilters_spec {Num : Type} (cd : Num → Num → Num → Num → Num)
    (le : Num → Num → Bool) (locations : List (Location Num)) (u : UserLocation Num)
    (c : FilterControls Num) (view view' : FilterView Num) (h : atMostOneCategory c) :
    (applyFilters cd le locations u c view).filteredLocations =
        locations.filter (passesCriteria cd le u c) ∧
      applyFilters cd le locations u c view = applyFilters cd le locations u c view' := by
  refine ⟨?_, ?_⟩
  · rw [applyFilters_eq_stages, stages_eq_filter cd le locations u c h]
  · unfold applyFilters
    split_ifs <;> rfl

/-- The scenario of C1: A (Cultura, 10 away) and B (Natureza, 5 away) with category
Cultura give `[A]` at maximum 20 and `[]` at maximum 5; at maximum 10, the distance
of A itself, A is kept. -/
theorem applyFilters_spec_witness :
    atMostOneCategory (culturaWithin 20) ∧
      (applyFilters sampleDistance sampleLe [sampleA, sampleB] sampleOrigin (culturaWithin 20)
          staleView).filteredLocations = [sampleA] ∧
      (applyFilters sampleDistance sampleLe [sampleA, sampleB] sampleOrigin (culturaWithin 5)
          staleView).filteredLocations = [] ∧
      (applyFilters sampleDistance sampleLe [sampleA, sampleB] sampleOrigin (culturaWithin 10)
          staleView).filteredLocations = [sampleA] ∧
      ((applyFilters sampleDistance sampleLe [sampleA, sampleB] sampleOrigin (culturaWithin 20)
            staleView).filteredLocations =
          [sampleA, sampleB].filter
            (passesCriteria sampleDistance sampleLe sampleOrigin (culturaWithin 20)) ∧
        applyFilters sampleDistance sampleLe [sampleA, sampleB] sampleOrigin (culturaWithin 20)
            staleView =
          applyFilters sampleDistance sampleLe [sampleA, sampleB] sampleOrigin (culturaWithin 20)
            { filteredLocations := [], filterTitle := "" }) :=
  have h20 : atMostOneCategory (culturaWithin 20) := by
    intro a b
    cases a <;> cases b <;> simp [culturaWithin, FilterControls.checked]
  ⟨h20, by decide, by decide, by decide,
    applyFilters_spec sampleDistance sampleLe [sampleA, sampleB] sampleOrigin (culturaWithin 20)
      staleView { filteredLocations := [], filterTitle := "" } h20⟩

theorem categoryStage_eq_filter {Num : Type} (c : FilterControls Num) :
    ∃ p : Location Num → Bool, ∀ l, categoryStage c l = l.filter p := by
  unfold categoryStage
  split_ifs
  all_goals first
    | exact ⟨_, fun _ => rfl⟩
    | exact ⟨fun _ => true, fun l => by simp⟩

theorem amenityStage_eq_filter {Num : Type} (c : FilterControls Num) :
    ∃ p : Location Num → Bool, ∀ l, amenityStage c l = l.filter p := by
  unfold amenityStage
  split_ifs
  all_goals first
    | exact ⟨_, fun _ => rfl⟩
    | exact ⟨fun _ => true, fun l => by simp⟩

/-- C4: the category, amenity and distance stages of `applyFilters` give the same
list in each of the six orders in which they can be applied, namely the list the
code computes (category, then amenity, then distance). -/
theorem filter_stages_any_order {Num : Type} (cd : Num → Num → Num → Num → Num)
    (le : Num → Num → Bool) (locations : List (Location Num)) (u : UserLocation Num)
    (c : FilterControls Num) (view : FilterView Num) :
    (applyFilters cd le locations u c view).filteredLocations =
        distanceStage cd le u c (amenityStage c (categoryStage c locations)) ∧
      distanceStage cd le u c (categoryStage c (amenityStage c locations)) =
        (applyFilters cd le locations u c view).filteredLocations ∧
      amenityStage c (distanceStage cd le u c (categoryStage c locations)) =
        (applyFilters cd le locations u c view).filteredLocations ∧
      amenityStage c (categoryStage c (distanceStage cd le u c locations)) =
        (applyFilters cd le locations u c view).filteredLocations ∧
      categoryStage c (distanceStage cd le u c (amenityStage c locations)) =
        (applyFilters cd le locations u c view).filteredLocations ∧
      categoryStage c (amenityStage c (distanceStage cd le u c locations)) =
        (applyFilters cd le locations u c view).filteredLocations := by
  obtain ⟨p, hp⟩ := categoryStage_eq_filter c
  obtain ⟨q, hq⟩ := amenityStage_eq_filter c
  have hd : ∀ l, distanceStage cd le u c l = l.filter (fun location =>
      le (cd u.latitude u.longitude location.latitude location.longitude)
        c.distanceSlider) := fun _ => rfl
  rw [applyFilters_eq_stages]
  simp only [hp, hq, hd, List.filter_filter]
  refine ⟨trivial, ?_, ?_, ?_, ?_, ?_⟩ <;>
    refine congrArg (fun r => List.filter r locations) (funext fun a => ?_) <;>
    simp only [Bool.and_comm, Bool.and_left_comm, Bool.and_assoc]

/-! ## Theorems: great-circle distance -/

theorem SignSymmetric.mul_neg {Num : Type} {m : JsMath Num} {neg : Num → Num}
    (h : SignSymmetric m neg) (a b : Num) : m.mul a (neg b) = neg (m.mul a b) := by
  rw [h.mul_comm a (neg b), h.neg_mul, h.mul_comm b a]

theorem SignSymmetric.neg_mul_neg {Num : Type} {m : JsMath Num} {neg : Num → Num}
    (h : SignSymmetric m neg) (a b : Num) : m.mul (neg a) (neg b) = m.mul a b := by
  rw [h.neg_mul, h.mul_neg, h.neg_neg]

theorem halfAngle_swap {Num : Type} {m : JsMath Num} {neg : Num → Num}
    (h : SignSymmetric m neg) (x y : Num) :
    m.sin (m.div (m.div (m.mul (m.sub x y) m.PI) (m.lit 180)) (m.lit 2)) =
        m.sin (m.div (m.div (m.mul (m.sub y x) m.PI) (m.lit 180)) (m.lit 2)) ∨
      m.sin (m.div (m.div (m.mul (m.sub x y) m.PI) (m.lit 180)) (m.lit 2)) =
        neg (m.sin (m.div (m.div (m.mul (m.sub y x) m.PI) (m.lit 180)) (m.lit 2))) := by
  by_cases hxy : x = y
  · subst hxy
    exact Or.inl rfl
  · right
    rw [h.sub_swap x y hxy, h.neg_mul, h.neg_div, h.neg_div, h.sin_neg]

theorem square_of_swap {Num : Type} {m : JsMath Num} {neg : Num → Num}
    (h : SignSymmetric m neg) (s t : Num) (hst : s = t ∨ s = neg t) :
    m.mul s s = m.mul t t := by
  rcases hst with rfl | rfl
  · rfl
  · exact h.neg_mul_neg t t

theorem product_of_swap {Num : Type} {m : JsMath Num} {neg : Num → Num}
    (h : SignSymmetric m neg) (x s t : Num) (hst : s = t ∨ s = neg t) :
    m.mul (m.mul x s) s = m.mul (m.mul x t) t := by
  rcases hst with rfl | rfl
  · rfl
  · rw [h.mul_neg, h.mul_neg, h.neg_mul, h.neg_neg]

/-- C2: `calculateDistance(lat1, lon1, lat2, lon2)` equals
`calculateDistance(lat2, lon2, lat1, lon1)` for all coordinates, given the sign
symmetries of double arithmetic (swapping two different numbers negates their
difference, negation passes through products and quotients, multiplication
commutes) and the oddness of `Math.sin`. -/
theorem calculateDistance_symmetric {Num : Type} (m : JsMath Num) (neg : Num → Num)
    (h : SignSymmetric m neg) (lat1 lon1 lat2 lon2 : Num) :
    calculateDistance m lat1 lon1 lat2 lon2 = calculateDistance m lat2 lon2 lat1 lon1 := by
  have hlat := square_of_swap h _ _ (halfAngle_swap h lat2 lat1)
  have hlon := product_of_swap h
    (m.mul (m.cos (m.div (m.mul lat1 m.PI) (m.lit 180)))
      (m.cos (m.div (m.mul lat2 m.PI) (m.lit 180)))) _ _ (halfAngle_swap h lon2 lon1)
  have hcos := h.mul_comm (m.cos (m.div (m.mul lat2 m.PI) (m.lit 180)))
    (m.cos (m.div (m.mul lat1 m.PI) (m.lit 180)))
  simp only [calculateDistance]
  rw [hlat, hlon, hcos]

theorem sampleMath_signSymmetric : SignSymmetric sampleMath sampleNeg where
  sub_swap := by
    intro a b _
    cases a <;> cases b <;> simp [sampleMath, sampleNeg, liftNumber]
  mul_comm := by
    intro a b
    cases a <;> cases b <;> simp [sampleMath, liftNumber, mul_comm]
  neg_mul := by
    intro a b
    cases a <;> cases b <;> simp [sampleMath, sampleNeg, liftNumber]
  neg_div := by
    intro a b
    cases a <;> cases b <;> simp [sampleMath, sampleNeg, liftNumber, neg_div]
  sin_neg := by
    intro a
    rfl
  neg_neg := by
    intro a
    cases a <;> simp [sampleNeg]

/-- An instance of C2 in the sample arithmetic: the laws hold there, and the
distance between (8, 0) and (-8, 180) is the same in both directions. -/
theorem calculateDistance_symmetric_witness :
    SignSymmetric sampleMath sampleNeg ∧
      calculateDistance sampleMath (some 8) (some 0) (some (-8)) (some 180) =
        calculateDistance sampleMath (some (-8)) (some 180) (some 8) (some 0) :=
  ⟨sampleMath_signSymmetric,
    calculateDistance_symmetric sampleMath sampleNeg sampleMath_signSymmetric _ _ _ _⟩

theorem calculateDistance_eq_of_term {Num : Type} (m : JsMath Num) (lat1 lon1 lat2 lon2 : Num) :
    calculateDistance m lat1 lon1 lat2 lon2 =
      m.mul (m.lit 6371)
        (m.mul (m.lit 2)
          (m.atan2 (m.sqrt (haversineTerm m lat1 lon1 lat2 lon2))
            (m.sqrt (m.sub (m.lit 1) (haversineTerm m lat1 lon1 lat2 lon2))))) :=
  rfl

theorem haversineTerm_self {Num : Type} (m : JsMath Num) (finite : Num → Prop)
    (hv : ExactValues m finite) (lat lon : Num) (hlat : finite lat) (hlon : finite lon) :
    haversineTerm m lat lon lat lon = m.lit 0 := by
  simp only [haversineTerm]
  rw [hv.sub_self lat hlat, hv.sub_self lon hlon, hv.zero_mul_PI,
    hv.zero_div 180 (by decide), hv.zero_div 2 (by decide), hv.sin_zero, hv.lit_mul_zero 0,
    hv.cos_sq_mul_zero _ (hv.finite_radians lat hlat), hv.lit_mul_zero 0, hv.zero_add_zero]

/-- C3, the part the code meets and the part it misses. Given the exact special
values of double arithmetic, `calculateDistance(lat, lon, lat, lon)` is exactly 0
for every finite point. And whenever rounding makes the haversine term `a` exceed
1, so that `Math.sqrt(1 - a)` is NaN, the NaN goes through `Math.atan2` and the two
products: the result is NaN, for which `0 <= result` is false. -/
theorem calculateDistance_self_zero_and_nan {Num : Type} (m : JsMath Num)
    (finite : Num → Prop) (nan : Num) (hv : ExactValues m finite)
    (hn : NaNPropagates m nan) :
    (∀ lat lon, finite lat → finite lon → calculateDistance m lat lon lat lon = m.lit 0) ∧
      ∀ lat1 lon1 lat2 lon2,
        m.sqrt (m.sub (m.lit 1) (haversineTerm m lat1 lon1 lat2 lon2)) = nan →
          calculateDistance m lat1 lon1 lat2 lon2 = nan ∧
            m.le (m.lit 0) (calculateDistance m lat1 lon1 lat2 lon2) = false := by
  constructor
  · intro lat lon hlat hlon
    rw [calculateDistance_eq_of_term, haversineTerm_self m finite hv lat lon hlat hlon,
      hv.sqrt_zero, hv.one_sub_zero, hv.sqrt_one, hv.atan2_zero_one, hv.lit_mul_zero 2,
      hv.lit_mul_zero 6371]
  · intro lat1 lon1 lat2 lon2 hs
    have hd : calculateDistance m lat1 lon1 lat2 lon2 = nan := by
      rw [calculateDistance_eq_of_term, hs, hn.atan2_nan, hn.mul_nan, hn.mul_nan]
    exact ⟨hd, by rw [hd]; exact hn.le_nan _⟩

theorem sampleMath_exactValues : ExactValues sampleMath (fun a => a.isSome = true) where
  sub_self := by
    intro a ha
    cases a with
    | none => simp at ha
    | some x => simp [sampleMath, liftNumber]
  finite_radians := by
    intro a ha
    cases a with
    | none => simp at ha
    | some x => simp [sampleMath, liftNumber]
  zero_mul_PI := by simp [sampleMath, liftNumber]
  zero_div := by
    intro n _
    simp [sampleMath, liftNumber]
  sin_zero := rfl
  cos_sq_mul_zero := by
    intro x hx
    cases x with
    | none => simp at hx
    | some x => simp [sampleMath, liftNumber]
  lit_mul_zero := by
    intro n
    simp [sampleMath, liftNumber]
  zero_add_zero := by simp [sampleMath, liftNumber]
  sqrt_zero := by simp [sampleMath]
  one_sub_zero := by simp [sampleMath, liftNumber]
  sqrt_one := by simp [sampleMath]
  atan2_zero_one := by simp [sampleMath, liftNumber]

theorem sampleMath_nanPropagates : NaNPropagates sampleMath none where
  atan2_nan := by
    intro y
    cases y <;> rfl
  mul_nan := by
    intro x
    cases x <;> rfl
  le_nan := by
    intro x
    cases x <;> rfl

/-- An instance of the two parts of C3 in the sample arithmetic: the distance from
(8, 0) to itself is 0, and from (90, 0) to (-90, 0) the haversine term is 9/4, the
square root of 1 - 9/4 is NaN, and so is the distance. -/
theorem calculateDistance_self_zero_and_nan_witness :
    ExactValues sampleMath (fun a => a.isSome = true) ∧ NaNPropagates sampleMath none ∧
      calculateDistance sampleMath (some 8) (some 0) (some 8) (some 0) = some 0 ∧
      haversineTerm sampleMath (some 90) (some 0) (some (-90)) (some 0) = some (9 / 4) ∧
      sampleMath.sqrt (sampleMath.sub (sampleMath.lit 1)
          (haversineTerm sampleMath (some 90) (some 0) (some (-90)) (some 0))) = none ∧
      calculateDistance sampleMath (some 90) (some 0) (some (-90)) (some 0) = none ∧
      sampleMath.le (sampleMath.lit 0)
          (calculateDistance sampleMath (some 90) (some 0) (some (-90)) (some 0)) = false :=
  have hterm : haversineTerm sampleMath (some 90) (some 0) (some (-90)) (some 0) =
      some (9 / 4) := by
    simp [haversineTerm, sampleMath, liftNumber]
    norm_num
  have hsqrt : sampleMath.sqrt (sampleMath.sub (sampleMath.lit 1)
      (haversineTerm sampleMath (some 90) (some 0) (some (-90)) (some 0))) = none := by
    rw [hterm]
    simp [sampleMath, liftNumber]
    norm_num
  have hspec := calculateDistance_self_zero_and_nan sampleMath (fun a => a.isSome = true) none
    sampleMath_exactValues sampleMath_nanPropagates
  ⟨sampleMath_exactValues, sampleMath_nanPropagates,
    by simpa [sampleMath] using hspec.1 (some 8) (some 0) rfl rfl, hterm, hsqrt,
    (hspec.2 _ _ _ _ hsqrt).1, (hspec.2 _ _ _ _ hsqrt).2⟩

/-! ## Theorems: stores -/

theorem updateFirst_length {α : Type} (p : α → Bool) (f : α → α) (l : List α) :
    (updateFirst p f l).length = l.length := by
  induction l with
  | nil => rfl
  | cons a as ih =>
    unfold updateFirst
    split_ifs <;> simp [ih]

theorem updateFirst_get_of_not {α : Type} (p : α → Bool) (f : α → α) (l : List α) (i : Nat)
    (d : α) (h : l.get? i = some d) (hp : p d = false) :
    (updateFirst p f l).get? i = some d := by
  induction l generalizing i with
  | nil => simp at h
  | cons a as ih =>
    unfold updateFirst
    cases i with
    | zero =>
      simp at h
      subst h
      simp [hp]
    | succ n =>
      simp at h
      split_ifs
      · simpa using h
      · simpa using ih n (by simpa using h)

theorem find_cons_pos {α : Type} (p : α → Bool) (a : α) (l : List α) (h : p a = true) :
    (a :: l).find? p = some a := by
  simp [List.find?_cons, h]

theorem find_cons_neg {α : Type} (p : α → Bool) (a : α) (l : List α) (h : p a = false) :
    (a :: l).find? p = l.find? p := by
  simp [List.find?_cons, h]

theorem find_updateFirst_same {α : Type} (k : α → ObjectId) (f : α → α)
    (hk : ∀ a, k (f a) = k a) (id : ObjectId) (l : List α) (a : α)
    (h : l.find? (fun d => k d == id) = some a) :
    (updateFirst (fun d => k d == id) f l).find? (fun d => k d == id) = some (f a) := by
  induction l with
  | nil => simp at h
  | cons b bs ih =>
    unfold updateFirst
    by_cases hb : k b = id
    · have hb1 : (k b == id) = true := by simpa using hb
      have hb2 : (k (f b) == id) = true := by simpa [hk] using hb
      rw [find_cons_pos (fun d => k d == id) b bs hb1] at h
      rw [if_pos hb1, find_cons_pos (fun d => k d == id) (f b) bs hb2]
      injection h with h
      rw [h]
    · have hb1 : (k b == id) = false := by simpa using hb
      rw [find_cons_neg (fun d => k d == id) b bs hb1] at h
      rw [if_neg (by simp [hb1]), find_cons_neg (fun d => k d == id) b _ hb1]
      exact ih h

theorem find_updateFirst_other {α : Type} (k : α → ObjectId) (f : α → α)
    (hk : ∀ a, k (f a) = k a) (id j : ObjectId) (hj : j ≠ id) (l : List α) :
    (updateFirst (fun d => k d == id) f l).find? (fun d => k d == j) =
      l.find? (fun d => k d == j) := by
  induction l with
  | nil => rfl
  | cons b bs ih =>
    unfold updateFirst
    by_cases hb : k b = id
    · have hb1 : (k b == id) = true := by simpa using hb
      have hbj : (k b == j) = false := by
        simpa using fun e : k b = j => hj (e.symm.trans hb)
      have hbj2 : (k (f b) == j) = false := by rw [hk]; exact hbj
      rw [if_pos hb1, find_cons_neg (fun d => k d == j) b bs hbj,
        find_cons_neg (fun d => k d == j) (f b) bs hbj2]
    · have hb1 : (k b == id) = false := by simpa using hb
      rw [if_neg (by simp [hb1])]
      by_cases hbj : (k b == j) = true
      · rw [find_cons_pos (fun d => k d == j) b _ hbj,
          find_cons_pos (fun d => k d == j) b _ hbj]
      · have hbj3 : (k b == j) = false := by simpa using hbj
        rw [find_cons_neg (fun d => k d == j) b _ hbj3,
          find_cons_neg (fun d => k d == j) b _ hbj3, ih]

theorem findLocationById_id {Num : Type} (locations : List (Location Num)) (id : ObjectId)
    (d : Location Num) (h : findLocationById locations id = some d) : d._id = id := by
  have := List.find?_some h
  simpa using this

theorem findUserById_id (users : List User) (id : ObjectId) (u : User)
    (h : findUserById users id = some u) : u._id = id := by
  have := List.find?_some h
  simpa using this

theorem findLocationById_update_same {Num : Type} (locations : List (Location Num))
    (id : ObjectId) (f : Location Num → Location Num) (hk : ∀ d, (f d)._id = d._id)
    (d : Location Num) (h : findLocationById locations id = some d) :
    findLocationById (updateFirst (fun d => d._id == id) f locations) id = some (f d) :=
  find_updateFirst_same (fun d : Location Num => d._id) f hk id locations d h

theorem findLocationById_update_other {Num : Type} (locations : List (Location Num))
    (id j : ObjectId) (f : Location Num → Location Num) (hk : ∀ d, (f d)._id = d._id)
    (hj : j ≠ id) :
    findLocationById (updateFirst (fun d => d._id == id) f locations) j =
      findLocationById locations j :=
  find_updateFirst_other (fun d : Location Num => d._id) f hk id j hj locations

theorem findUserById_update_same (users : List User) (id : ObjectId) (f : User → User)
    (hk : ∀ d, (f d)._id = d._id) (d : User) (h : findUserById users id = some d) :
    findUserById (updateFirst (fun d => d._id == id) f users) id = some (f d) :=
  find_updateFirst_same (fun d : User => d._id) f hk id users d h

/-! ## Theorems: vote handlers -/

theorem likeHandler_found {Num : Type} (cast : String → Except String ObjectId) (db : Db Num)
    (locationId : String) (id : ObjectId) (location : Location Num)
    (hc : cast locationId = .ok id) (h : findLocationById db.locations id = some location) :
    likeHandler cast db locationId =
      ({ status := 200, body := .votes (location.likes + 1) location.dislikes },
        { db with
          locations := updateFirst (fun d => d._id == id)
            (fun d => { d with likes := location.likes + 1 }) db.locations }) := by
  unfold likeHandler
  rw [hc]
  simp only
  rw [h]
  simp [saveLikes, findLocationById_id _ _ _ h]

theorem dislikeHandler_found {Num : Type} (cast : String → Except String ObjectId)
    (db : Db Num) (locationId : String) (id : ObjectId) (location : Location Num)
    (hc : cast locationId = .ok id) (h : findLocationById db.locations id = some location) :
    dislikeHandler cast db locationId =
      ({ status := 200, body := .votes location.likes (location.dislikes + 1) },
        { db with
          locations := updateFirst (fun d => d._id == id)
            (fun d => { d with dislikes := location.dislikes + 1 }) db.locations }) := by
  unfold dislikeHandler
  rw [hc]
  simp only
  rw [h]
  simp [saveDislikes, findLocationById_id _ _ _ h]

theorem likeHandler_missing {Num : Type} (cast : String → Except String ObjectId)
    (db : Db Num) (locationId : String) (id : ObjectId) (hc : cast locationId = .ok id)
    (h : findLocationById db.locations id = none) :
    likeHandler cast db locationId =
      ({ status := 404, body := .message "Location not found" }, db) := by
  unfold likeHandler
  rw [hc]
  simp only
  rw [h]

theorem dislikeHandler_missing {Num : Type} (cast : String → Except String ObjectId)
    (db : Db Num) (locationId : String) (id : ObjectId) (hc : cast locationId = .ok id)
    (h : findLocationById db.locations id = none) :
    dislikeHandler cast db locationId =
      ({ status := 404, body := .message "Location not found" }, db) := by
  unfold dislikeHandler
  rw [hc]
  simp only
  rw [h]

theorem likeHandler_malformed {Num : Type} (cast : String → Except String ObjectId)
    (db : Db Num) (locationId message : String) (hc : cast locationId = .error message) :
    likeHandler cast db locationId = ({ status := 500, body := .message message }, db) := by
  unfold likeHandler
  rw [hc]

theorem dislikeHandler_malformed {Num : Type} (cast : String → Except String ObjectId)
    (db : Db Num) (locationId message : String) (hc : cast locationId = .error message) :
    dislikeHandler cast db locationId = ({ status := 500, body := .message message }, db) := by
  unfold dislikeHandler
  rw [hc]

theorem othersUnchanged_refl {Num : Type} (id : ObjectId) (db : Db Num) :
    othersUnchanged id db db :=
  ⟨rfl, rfl, fun _ _ h _ => h⟩

theorem countersNotDecreased_refl {Num : Type} (db : Db Num) : countersNotDecreased db db :=
  fun _ d h => ⟨d, h, le_refl _, le_refl _⟩

theorem othersUnchanged_update {Num : Type} (db : Db Num) (id : ObjectId)
    (f : Location Num → Location Num) :
    othersUnchanged id db
      { db with locations := updateFirst (fun d => d._id == id) f db.locations } := by
  refine ⟨rfl, updateFirst_length _ _ _, fun i d hd hne => ?_⟩
  exact updateFirst_get_of_not _ _ _ i d hd (by simpa using hne)

theorem countersNotDecreased_update {Num : Type} (db : Db Num) (id : ObjectId)
    (f : Location Num → Location Num) (hk : ∀ d, (f d)._id = d._id)
    (hl : ∀ d, findLocationById db.locations id = some d → d.likes ≤ (f d).likes)
    (hd : ∀ d, findLocationById db.locations id = some d → d.dislikes ≤ (f d).dislikes) :
    countersNotDecreased db
      { db with locations := updateFirst (fun d => d._id == id) f db.locations } := by
  intro j d hj
  by_cases hji : j = id
  · subst hji
    exact ⟨f d, findLocationById_update_same _ j f hk d hj, hl d hj, hd d hj⟩
  · refine ⟨d, ?_, le_refl _, le_refl _⟩
    show findLocationById (updateFirst (fun d => d._id == id) f db.locations) j = some d
    rw [findLocationById_update_other _ id j f hk hji]
    exact hj

theorem likeHandler_frame_by_id {Num : Type} (cast : String → Except String ObjectId)
    (db : Db Num) (locationId : String) (id : ObjectId) (hc : cast locationId = .ok id) :
    othersUnchanged id db (likeHandler cast db locationId).2 ∧
      countersNotDecreased db (likeHandler cast db locationId).2 := by
  cases h : findLocationById db.locations id with
  | none =>
    rw [likeHandler_missing cast db _ id hc h]
    exact ⟨othersUnchanged_refl _ _, countersNotDecreased_refl _⟩
  | some location =>
    rw [likeHandler_found cast db _ id location hc h]
    refine ⟨othersUnchanged_update db id _,
      countersNotDecreased_update db id _ (fun _ => rfl) ?_ ?_⟩ <;>
      (intro d hd; obtain rfl : location = d := Option.some.inj (h.symm.trans hd); simp)

theorem dislikeHandler_frame_by_id {Num : Type} (cast : String → Except String ObjectId)
    (db : Db Num) (locationId : String) (id : ObjectId) (hc : cast locationId = .ok id) :
    othersUnchanged id db (dislikeHandler cast db locationId).2 ∧
      countersNotDecreased db (dislikeHandler cast db locationId).2 := by
  cases h : findLocationById db.locations id with
  | none =>
    rw [dislikeHandler_missing cast db _ id hc h]
    exact ⟨othersUnchanged_refl _ _, countersNotDecreased_refl _⟩
  | some location =>
    rw [dislikeHandler_found cast db _ id location hc h]
    refine ⟨othersUnchanged_update db id _,
      countersNotDecreased_update db id _ (fun _ => rfl) ?_ ?_⟩ <;>
      (intro d hd; obtain rfl : location = d := Option.some.inj (h.symm.trans hd); simp)

/-- C5, as the code has it: when the route parameter is a well-formed id of a stored
location, the like handler answers 200 with the new likes and the dislikes, the
stored location has exactly one more like and the same dislikes, and every other
location is unchanged (symmetrically for dislike); when it is a well-formed id
that no location has, both handlers answer 404 and leave the store as it was;
when it is not a well-formed id, the cast inside `findById` throws and both
handlers answer 500 with the message of the error, the store unchanged. In all
cases no counter decreases. -/
theorem vote_handlers_spec {Num : Type} (cast : String → Except String ObjectId)
    (db : Db Num) (locationId : String) :
    (∀ id location, cast locationId = .ok id →
        findLocationById db.locations id = some location →
        (likeHandler cast db locationId).1 =
            { status := 200, body := .votes (location.likes + 1) location.dislikes } ∧
          findLocationById (likeHandler cast db locationId).2.locations id =
            some { location with likes := location.likes + 1 } ∧
          (dislikeHandler cast db locationId).1 =
            { status := 200, body := .votes location.likes (location.dislikes + 1) } ∧
          findLocationById (dislikeHandler cast db locationId).2.locations id =
            some { location with dislikes := location.dislikes + 1 }) ∧
      (∀ id, cast locationId = .ok id → findLocationById db.locations id = none →
        likeHandler cast db locationId =
            ({ status := 404, body := .message "Location not found" }, db) ∧
          dislikeHandler cast db locationId =
            ({ status := 404, body := .message "Location not found" }, db)) ∧
      (∀ message, cast locationId = .error message →
        likeHandler cast db locationId =
            ({ status := 500, body := .message message }, db) ∧
          dislikeHandler cast db locationId =
            ({ status := 500, body := .message message }, db)) ∧
      (∀ id, cast locationId = .ok id →
        othersUnchanged id db (likeHandler cast db locationId).2 ∧
          othersUnchanged id db (dislikeHandler cast db locationId).2) ∧
      countersNotDecreased db (likeHandler cast db locationId).2 ∧
      countersNotDecreased db (dislikeHandler cast db locationId).2 := by
  refine ⟨fun id location hc h => ?_,
    fun id hc h => ⟨likeHandler_missing cast db _ id hc h, dislikeHandler_missing cast db _ id hc h⟩,
    fun message hc =>
      ⟨likeHandler_malformed cast db _ message hc, dislikeHandler_malformed cast db _ message hc⟩,
    fun id hc =>
      ⟨(likeHandler_frame_by_id cast db _ id hc).1, (dislikeHandler_frame_by_id cast db _ id hc).1⟩,
    ?_, ?_⟩
  · rw [likeHandler_found cast db _ id _ hc h, dislikeHandler_found cast db _ id _ hc h]
    refine ⟨rfl, ?_, rfl, ?_⟩
    · exact findLocationById_update_same _ id
        (fun d => { d with likes := location.likes + 1 }) (fun _ => rfl) location h
    · exact findLocationById_update_same _ id
        (fun d => { d with dislikes := location.dislikes + 1 }) (fun _ => rfl) location h
  · cases hc : cast locationId with
    | error message =>
      rw [likeHandler_malformed cast db _ message hc]
      exact countersNotDecreased_refl _
    | ok id => exact (likeHandler_frame_by_id cast db _ id hc).2
  · cases hc : cast locationId with
    | error message =>
      rw [dislikeHandler_malformed cast db _ message hc]
      exact countersNotDecreased_refl _
    | ok id => exact (dislikeHandler_frame_by_id cast db _ id hc).2

/-- An instance of C5 on the sample database: liking location 1 (3 likes, 1 dislike)
answers 200 with 4 and 1. -/
theorem vote_handlers_spec_witness :
    sampleCast "1" = .ok 1 ∧ findLocationById sampleDb.locations 1 = some sampleA ∧
      (likeHandler sampleCast sampleDb "1").1 = { status := 200, body := .votes 4 1 } ∧
      findLocationById (likeHandler sampleCast sampleDb "1").2.locations 1 =
        some { sampleA with likes := 4 } ∧
      (dislikeHandler sampleCast sampleDb "1").1 = { status := 200, body := .votes 3 2 } ∧
      findLocationById (dislikeHandler sampleCast sampleDb "1").2.locations 1 =
        some { sampleA with dislikes := 2 } :=
  ⟨rfl, rfl, (vote_handlers_spec sampleCast sampleDb "1").1 1 sampleA rfl rfl⟩

/-- C5 as stated fails: `xyz` is the id of no stored location, yet a like or a
dislike request for it is answered 500, not 404 (the store is unchanged). -/
theorem vote_malformed_id_answers_500 :
    (∀ d ∈ sampleDb.locations, ∀ id, sampleCast "xyz" = .ok id → d._id ≠ id) ∧
      (likeHandler sampleCast sampleDb "xyz").1 =
        { status := 500, body := .message "Cast to ObjectId failed for value xyz" } ∧
      (dislikeHandler sampleCast sampleDb "xyz").1 =
        { status := 500, body := .message "Cast to ObjectId failed for value xyz" } ∧
      (likeHandler sampleCast sampleDb "xyz").2.locations = sampleDb.locations ∧
      (dislikeHandler sampleCast sampleDb "xyz").2.locations = sampleDb.locations := by
  refine ⟨?_, by decide, by decide, by decide, by decide⟩
  intro d _ id h
  cases h

/-! ## Theorems: favorites handlers -/

theorem mem_updateFirst {α : Type} (p : α → Bool) (f : α → α) (l : List α) (x : α)
    (h : x ∈ updateFirst p f l) : x ∈ l ∨ ∃ a ∈ l, p a = true ∧ x = f a := by
  induction l with
  | nil => simp [updateFirst] at h
  | cons b bs ih =>
    unfold updateFirst at h
    by_cases hb : p b = true
    · rw [if_pos hb] at h
      rcases List.mem_cons.1 h with h | h
      · exact Or.inr ⟨b, List.mem_cons_self _ _, hb, h⟩
      · exact Or.inl (List.mem_cons_of_mem _ h)
    · rw [if_neg hb] at h
      rcases List.mem_cons.1 h with h | h
      · exact Or.inl (h ▸ List.mem_cons_self _ _)
      · rcases ih h with h | ⟨a, ha, hpa, hx⟩
        · exact Or.inl (List.mem_cons_of_mem _ h)
        · exact Or.inr ⟨a, List.mem_cons_of_mem _ ha, hpa, hx⟩

theorem mem_updateFirst_find {α : Type} (p : α → Bool) (f : α → α) (l : List α) (x : α)
    (h : x ∈ updateFirst p f l) : x ∈ l ∨ ∃ a, l.find? p = some a ∧ x = f a := by
  induction l with
  | nil => simp [updateFirst] at h
  | cons b bs ih =>
    unfold updateFirst at h
    by_cases hb : p b = true
    · rw [if_pos hb] at h
      rcases List.mem_cons.1 h with h | h
      · exact Or.inr ⟨b, find_cons_pos p b bs hb, h⟩
      · exact Or.inl (List.mem_cons_of_mem _ h)
    · rw [if_neg hb] at h
      have hb' : p b = false := by simpa using hb
      rcases List.mem_cons.1 h with h | h
      · exact Or.inl (h ▸ List.mem_cons_self _ _)
      · rcases ih h with h | ⟨a, ha, hx⟩
        · exact Or.inl (List.mem_cons_of_mem _ h)
        · exact Or.inr ⟨a, (find_cons_neg p b bs hb').trans ha, hx⟩

theorem findUserById_mem (users : List User) (id : ObjectId) (u : User)
    (h : findUserById users id = some u) : u ∈ users :=
  List.mem_of_find?_eq_some h

theorem addFavoriteHandler_missing {Num : Type} (cast : String → Except String ObjectId)
    (idEquals : String → ObjectId → Bool) (db : Db Num) (userId : ObjectId)
    (locationId : String) (h : findUserById db.users userId = none) :
    addFavoriteHandler cast idEquals db userId locationId =
      ({ status := 404, body := .text "User not found" }, db) := by
  unfold addFavoriteHandler
  rw [h]

theorem addFavoriteHandler_present {Num : Type} (cast : String → Except String ObjectId)
    (idEquals : String → ObjectId → Bool) (db : Db Num) (userId : ObjectId)
    (locationId : String) (user : User) (h : findUserById db.users userId = some user)
    (hm : user.favorites.any (fun f => idEquals locationId f) = true) :
    addFavoriteHandler cast idEquals db userId locationId =
      ({ status := 400, body := .text "Location already in favorites" }, db) := by
  unfold addFavoriteHandler
  rw [h]
  simp only
  rw [if_pos hm]

theorem addFavoriteHandler_malformed {Num : Type} (cast : String → Except String ObjectId)
    (idEquals : String → ObjectId → Bool) (db : Db Num) (userId : ObjectId)
    (locationId message : String) (user : User)
    (h : findUserById db.users userId = some user)
    (hm : user.favorites.any (fun f => idEquals locationId f) = false)
    (hc : cast locationId = .error message) :
    addFavoriteHandler cast idEquals db userId locationId =
      ({ status := 500, body := .text "Internal Server Error" }, db) := by
  unfold addFavoriteHandler
  rw [h]
  simp only
  rw [if_neg (by simp [hm]), hc]

theorem addFavoriteHandler_fresh {Num : Type} (cast : String → Except String ObjectId)
    (idEquals : String → ObjectId → Bool) (db : Db Num) (userId : ObjectId)
    (locationId : String) (user : User) (id : ObjectId)
    (h : findUserById db.users userId = some user)
    (hm : user.favorites.any (fun f => idEquals locationId f) = false)
    (hc : cast locationId = .ok id) :
    addFavoriteHandler cast idEquals db userId locationId =
      ({ status := 200, body := .message "Location saved to favorites" },
        { db with
          users := updateFirst (fun d => d._id == userId)
            (fun d => { d with favorites := d.favorites ++ [id] }) db.users }) := by
  unfold addFavoriteHandler
  rw [h]
  simp only
  rw [if_neg (by simp [hm]), hc]
  simp [savePush, findUserById_id _ _ _ h]

theorem removeFavoriteHandler_missing {Num : Type} (cast : String → Except String ObjectId)
    (db : Db Num) (userId : ObjectId) (locationId : String)
    (h : findUserById db.users userId = none) :
    removeFavoriteHandler cast db userId locationId =
      ({ status := 404, body := .text "User not found" }, db) := by
  unfold removeFavoriteHandler
  rw [h]

theorem removeFavoriteHandler_malformed {Num : Type} (cast : String → Except String ObjectId)
    (db : Db Num) (userId : ObjectId) (locationId message : String) (user : User)
    (h : findUserById db.users userId = some user) (hc : cast locationId = .error message) :
    removeFavoriteHandler cast db userId locationId =
      ({ status := 500, body := .text "Internal Server Error" }, db) := by
  unfold removeFavoriteHandler
  rw [h]
  simp only
  rw [hc]

theorem removeFavoriteHandler_found {Num : Type} (cast : String → Except String ObjectId)
    (db : Db Num) (userId : ObjectId) (locationId : String) (user : User) (id : ObjectId)
    (h : findUserById db.users userId = some user) (hc : cast locationId = .ok id) :
    removeFavoriteHandler cast db userId locationId =
      ({ status := 200, body := .message "Location removed from favorites" },
        { db with
          users := updateFirst (fun d => d._id == userId)
            (fun d => { d with favorites := d.favorites.filter (fun f => f != id) })
            db.users }) := by
  unfold removeFavoriteHandler
  rw [h]
  simp only
  rw [hc]
  simp [savePull, findUserById_id _ _ _ h]

theorem nodup_after_update (users : List User) (id : ObjectId) (f : User → User)
    (hf : ∀ a ∈ users, (f a).favorites.Nodup) (h : ∀ u ∈ users, u.favorites.Nodup) :
    ∀ u ∈ updateFirst (fun d => d._id == id) f users, u.favorites.Nodup := by
  intro u hu
  rcases mem_updateFirst _ _ _ _ hu with hu | ⟨a, ha, _, rfl⟩
  · exact h u hu
  · exact hf a ha

theorem any_idEquals_iff (idEquals : String → ObjectId → Bool) (locationId : String)
    (id : ObjectId) (h : ∀ f, idEquals locationId f = true ↔ f = id) (favs : List ObjectId) :
    favs.any (fun f => idEquals locationId f) = true ↔ id ∈ favs := by
  rw [List.any_eq_true]
  constructor
  · rintro ⟨f, hf, he⟩
    rw [← (h f).1 he]
    exact hf
  · intro hm
    exact ⟨id, hm, (h id).2 rfl⟩

theorem addFavoriteTask_two_steps {Num : Type} (cast : String → Except String ObjectId)
    (idEquals : String → ObjectId → Bool) (db : Db Num) (userId : ObjectId)
    (locationId : String) :
    (addFavoriteTaskStep cast idEquals
        (addFavoriteTaskStep cast idEquals db.users
          (AddFavoriteTask.start userId locationId : AddFavoriteTask Num)).2
        (addFavoriteTaskStep cast idEquals db.users
          (AddFavoriteTask.start userId locationId : AddFavoriteTask Num)).1).1 =
        .done (addFavoriteHandler cast idEquals db userId locationId).1 ∧
      (addFavoriteTaskStep cast idEquals
        (addFavoriteTaskStep cast idEquals db.users
          (AddFavoriteTask.start userId locationId : AddFavoriteTask Num)).2
        (addFavoriteTaskStep cast idEquals db.users
          (AddFavoriteTask.start userId locationId : AddFavoriteTask Num)).1).2 =
        (addFavoriteHandler cast idEquals db userId locationId).2.users := by
  unfold addFavoriteHandler
  simp only [addFavoriteTaskStep]
  cases findUserById db.users userId with
  | none => exact ⟨rfl, rfl⟩
  | some user =>
    simp only
    split_ifs
    · exact ⟨rfl, rfl⟩
    · cases cast locationId with
      | error _ => exact ⟨rfl, rfl⟩
      | ok id => exact ⟨rfl, rfl⟩

/-- C7, as the code has it: for an existing user whose favorites have no
duplicates and a route parameter that names the id `id` (it casts to `id` and
`includes` matches it with `id` only), a second add-favorite call in a row answers
400 "Location already in favorites" and leaves the store as the first call left
it, after which `id` occurs exactly once in the user's favorites. When the
parameter is not a well-formed id and `includes` matches nothing, the handler
answers 500 and changes nothing. Served one after another, remove-favorite keeps
every favorites list free of duplicates, and so does add-favorite when `includes`
matches a well-formed parameter with its own id. -/
theorem addFavorite_twice_spec {Num : Type} (cast : String → Except String ObjectId)
    (idEquals : String → ObjectId → Bool) (db : Db Num) (userId : ObjectId)
    (locationId : String) :
    (∀ user id, findUserById db.users userId = some user → user.favorites.Nodup →
        namesId cast idEquals locationId id →
        addFavoriteHandler cast idEquals
              (addFavoriteHandler cast idEquals db userId locationId).2 userId locationId =
            ({ status := 400, body := .text "Location already in favorites" },
              (addFavoriteHandler cast idEquals db userId locationId).2) ∧
          ∃ user', findUserById
                (addFavoriteHandler cast idEquals db userId locationId).2.users userId =
              some user' ∧ user'.favorites.count id = 1) ∧
      (∀ user message, findUserById db.users userId = some user →
        cast locationId = .error message →
        user.favorites.any (fun f => idEquals locationId f) = false →
        addFavoriteHandler cast idEquals db userId locationId =
          ({ status := 500, body := .text "Internal Server Error" }, db)) ∧
      ((∀ u ∈ db.users, u.favorites.Nodup) →
        (∀ u ∈ (removeFavoriteHandler cast db userId locationId).2.users,
            u.favorites.Nodup) ∧
          ((∀ id, cast locationId = .ok id → idEquals locationId id = true) →
            ∀ u ∈ (addFavoriteHandler cast idEquals db userId locationId).2.users,
              u.favorites.Nodup)) := by
  refine ⟨?_, ?_, ?_⟩
  · intro user id hu hnd ⟨hc, hid⟩
    have hany := any_idEquals_iff idEquals locationId id hid
    by_cases hm : id ∈ user.favorites
    · have hp := addFavoriteHandler_present cast idEquals db userId locationId user hu
        ((hany _).2 hm)
      rw [hp]
      exact ⟨hp, user, hu, List.count_eq_one_of_mem hnd hm⟩
    · have hf : user.favorites.any (fun f => idEquals locationId f) = false := by
        cases hb : user.favorites.any (fun f => idEquals locationId f) with
        | false => rfl
        | true => exact absurd ((hany _).1 hb) hm
      rw [addFavoriteHandler_fresh cast idEquals db userId locationId user id hu hf hc]
      have hfind := findUserById_update_same db.users userId
        (fun d => { d with favorites := d.favorites ++ [id] }) (fun _ => rfl) user hu
      refine ⟨addFavoriteHandler_present cast idEquals _ userId locationId _ hfind
        ((hany _).2 (by simp)), _, hfind, ?_⟩
      simp [List.count_eq_zero_of_not_mem hm]
  · intro user message hu hc hf
    exact addFavoriteHandler_malformed cast idEquals db userId locationId message user hu hf hc
  · intro hall
    constructor
    · cases hu : findUserById db.users userId with
      | none =>
        rw [removeFavoriteHandler_missing cast db _ _ hu]
        exact hall
      | some user =>
        cases hc : cast locationId with
        | error message =>
          rw [removeFavoriteHandler_malformed cast db _ _ message user hu hc]
          exact hall
        | ok id =>
          rw [removeFavoriteHandler_found cast db _ _ user id hu hc]
          exact nodup_after_update db.users userId _
            (fun a ha => (hall a ha).filter _) hall
    · intro hrec
      cases hu : findUserById db.users userId with
      | none =>
        rw [addFavoriteHandler_missing cast idEquals db _ _ hu]
        exact hall
      | some user =>
        cases hb : user.favorites.any (fun f => idEquals locationId f) with
        | true =>
          rw [addFavoriteHandler_present cast idEquals db _ _ user hu hb]
          exact hall
        | false =>
          cases hc : cast locationId with
          | error message =>
            rw [addFavoriteHandler_malformed cast idEquals db _ _ message user hu hb hc]
            exact hall
          | ok id =>
            rw [addFavoriteHandler_fresh cast idEquals db _ _ user id hu hb hc]
            have hnot : id ∉ user.favorites := by
              intro hm
              have : user.favorites.any (fun f => idEquals locationId f) = true :=
                List.any_eq_true.2 ⟨id, hm, hrec id hc⟩
              rw [hb] at this
              cases this
            intro u hmem
            rcases mem_updateFirst_find _ _ _ _ hmem with hmem | ⟨a, ha, rfl⟩
            · exact hall u hmem
            · obtain rfl : user = a := Option.some.inj (hu.symm.trans ha)
              exact List.Nodup.append (hall user (findUserById_mem _ _ _ hu))
                (List.nodup_singleton _) (by simpa using hnot)

/-- An instance of C7 on the sample database: user 10 (favorites `[2]`) adds
location 1 twice in a row. -/
theorem addFavorite_twice_spec_witness :
    findUserById sampleDb.users 10 =
        some { _id := 10, name := "Ana", email := "ana@example.org", password := "$2a$10$h",
               favorites := [2] } ∧
      [2].Nodup ∧ namesId sampleCast sampleIdEquals "1" 1 ∧
      (addFavoriteHandler sampleCast sampleIdEquals
            (addFavoriteHandler sampleCast sampleIdEquals sampleDb 10 "1").2 10 "1" =
          ({ status := 400, body := .text "Location already in favorites" },
            (addFavoriteHandler sampleCast sampleIdEquals sampleDb 10 "1").2) ∧
        ∃ user', findUserById
              (addFavoriteHandler sampleCast sampleIdEquals sampleDb 10 "1").2.users 10 =
            some user' ∧ user'.favorites.count 1 = 1) :=
  have hn : namesId sampleCast sampleIdEquals "1" 1 :=
    ⟨rfl, fun f => by
      show ((1 : Nat) == f) = true ↔ f = 1
      rw [beq_iff_eq]
      exact eq_comm⟩
  ⟨rfl, by decide, hn,
    (addFavorite_twice_spec sampleCast sampleIdEquals sampleDb 10 "1").1 _ 1 rfl (by decide) hn⟩

/-- C7 as stated fails. For the existing user 10, whose favorites `[2]` have no
duplicates, a second add-favorite call in a row with the location id `xyz` is
answered 500, not 400. And two add-favorite requests for location 1 that both read
the user before either saves are both answered 200 and leave the id twice in the
favorites. -/
theorem addFavorite_second_call_500_and_duplicate :
    findUserById sampleDb.users 10 =
        some { _id := 10, name := "Ana", email := "ana@example.org", password := "$2a$10$h",
               favorites := [2] } ∧
      (addFavoriteHandler sampleCast sampleIdEquals
          (addFavoriteHandler sampleCast sampleIdEquals sampleDb 10 "xyz").2 10 "xyz").1 =
        { status := 500, body := .text "Internal Server Error" } ∧
      runAddFavoriteSchedule sampleCast sampleIdEquals [0, 1, 0, 1]
          [(.start 10 "1" : AddFavoriteTask Nat), .start 10 "1"] sampleDb.users =
        ([.done { status := 200, body := .message "Location saved to favorites" },
            .done { status := 200, body := .message "Location saved to favorites" }],
          [{ _id := 10, name := "Ana", email := "ana@example.org", password := "$2a$10$h",
             favorites := [2, 1, 1] }]) := by
  decide

/-- C9, as the code has it: for an existing user and a route parameter that is a
well-formed id, the remove-favorite handler answers 200 and the user's favorites
become the previous list without any occurrence of the id, the other entries kept
in order (so an id that was not there leaves the user as it was); for an existing
user and a parameter that is not a well-formed id, `pull` throws and the handler
answers 500 and changes nothing; for a missing user it answers 404 and changes
nothing. Locations are never touched. -/
theorem removeFavorite_spec {Num : Type} (cast : String → Except String ObjectId)
    (db : Db Num) (userId : ObjectId) (locationId : String) :
    (∀ user id, findUserById db.users userId = some user → cast locationId = .ok id →
        (removeFavoriteHandler cast db userId locationId).1 =
            { status := 200, body := .message "Location removed from favorites" } ∧
          findUserById (removeFavoriteHandler cast db userId locationId).2.users userId =
            some { user with favorites := user.favorites.filter (fun f => f != id) } ∧
          (id ∉ user.favorites →
            findUserById (removeFavoriteHandler cast db userId locationId).2.users userId =
              some user)) ∧
      (∀ user message, findUserById db.users userId = some user →
        cast locationId = .error message →
        removeFavoriteHandler cast db userId locationId =
          ({ status := 500, body := .text "Internal Server Error" }, db)) ∧
      (findUserById db.users userId = none →
        removeFavoriteHandler cast db userId locationId =
          ({ status := 404, body := .text "User not found" }, db)) ∧
      (removeFavoriteHandler cast db userId locationId).2.locations = db.locations := by
  refine ⟨fun user id hu hc => ?_,
    fun user message hu hc => removeFavoriteHandler_malformed cast db _ _ message user hu hc,
    removeFavoriteHandler_missing cast db _ _, ?_⟩
  · rw [removeFavoriteHandler_found cast db _ _ user id hu hc]
    have hfind := findUserById_update_same db.users userId
      (fun d => { d with favorites := d.favorites.filter (fun f => f != id) })
      (fun _ => rfl) user hu
    refine ⟨rfl, hfind, fun hm => ?_⟩
    have hsame : user.favorites.filter (fun f => f != id) = user.favorites := by
      rw [List.filter_eq_self]
      intro a ha
      simpa using fun e : a = id => hm (e ▸ ha)
    rw [hfind]
    simp only [hsame]
  · cases hu : findUserById db.users userId with
    | none => rw [removeFavoriteHandler_missing cast db _ _ hu]
    | some user =>
      cases hc : cast locationId with
      | error message => rw [removeFavoriteHandler_malformed cast db _ _ message user hu hc]
      | ok id => rw [removeFavoriteHandler_found cast db _ _ user id hu hc]

/-- An instance of C9 on the sample database: user 10 removes location 7, which is
not among the favorites `[2]`. -/
theorem removeFavorite_spec_witness :
    findUserById sampleDb.users 10 =
        some { _id := 10, name := "Ana", email := "ana@example.org", password := "$2a$10$h",
               favorites := [2] } ∧
      sampleCast "7" = .ok 7 ∧
      (removeFavoriteHandler sampleCast sampleDb 10 "7").1 =
        { status := 200, body := .message "Location removed from favorites" } ∧
      findUserById (removeFavoriteHandler sampleCast sampleDb 10 "7").2.users 10 =
        some { _id := 10, name := "Ana", email := "ana@example.org", password := "$2a$10$h",
               favorites := [2] } :=
  have h := (removeFavorite_spec sampleCast sampleDb 10 "7").1 _ 7
    (rfl : findUserById sampleDb.users 10 =
      some { _id := 10, name := "Ana", email := "ana@example.org", password := "$2a$10$h",
             favorites := [2] }) rfl
  ⟨rfl, rfl, h.1, h.2.2 (by decide)⟩

/-- C9 as stated fails: user 10 exists, yet a remove-favorite request with the
location id `xyz` is answered 500, not 200 (the users are unchanged). -/
theorem removeFavorite_malformed_id_answers_500 :
    findUserById sampleDb.users 10 =
        some { _id := 10, name := "Ana", email := "ana@example.org", password := "$2a$10$h",
               favorites := [2] } ∧
      (removeFavoriteHandler sampleCast sampleDb 10 "xyz").1 =
        { status := 500, body := .text "Internal Server Error" } ∧
      (removeFavoriteHandler sampleCast sampleDb 10 "xyz").2.users = sampleDb.users := by
  decide

/-! ## Theorems: the `auth` middleware -/

theorem splitOnSpace_ne_nil (l : List Char) : splitOnSpace l ≠ [] := by
  cases l with
  | nil => simp [splitOnSpace]
  | cons c cs =>
    unfold splitOnSpace
    split_ifs
    · simp
    · split <;> simp

theorem splitOnSpace_head (l : List Char) :
    (splitOnSpace l).get? 0 = some (l.takeWhile (fun c => c != ' ')) := by
  induction l with
  | nil => simp [splitOnSpace]
  | cons c cs ih =>
    unfold splitOnSpace
    by_cases hc : c = ' '
    · simp [hc]
    · rw [if_neg hc]
      cases hs : splitOnSpace cs with
      | nil => exact absurd hs (splitOnSpace_ne_nil cs)
      | cons w ws =>
        rw [hs] at ih
        simp at ih
        simp [List.takeWhile_cons, hc, ih]

theorem splitOnSpace_second (l : List Char) :
    (splitOnSpace l).get? 1 =
      if ' ' ∈ l then
        some (((l.dropWhile (fun c => c != ' ')).drop 1).takeWhile (fun c => c != ' '))
      else none := by
  induction l with
  | nil => simp [splitOnSpace]
  | cons c cs ih =>
    unfold splitOnSpace
    by_cases hc : c = ' '
    · subst hc
      have h0 := splitOnSpace_head cs
      simp [List.dropWhile_cons] at h0 ⊢
      exact h0
    · rw [if_neg hc]
      have hc' : ¬ (' ' = c) := fun e => hc e.symm
      cases hs : splitOnSpace cs with
      | nil => exact absurd hs (splitOnSpace_ne_nil cs)
      | cons w ws =>
        rw [hs] at ih
        simp [List.dropWhile_cons, hc, hc'] at ih ⊢
        exact ih

theorem headerToken_some (h : String) (he : h ≠ "") (hs : ' ' ∈ h.toList) :
    headerToken (some h) = some (secondField (some h)) := by
  simp only [headerToken, secondField]
  rw [if_neg he, splitOnSpace_second, if_pos hs]
  rfl

theorem headerToken_none (h : String) (hs : ' ' ∉ h.toList) :
    headerToken (some h) = none ∧ secondField (some h) = "" := by
  have hd : h.toList.dropWhile (fun c => c != ' ') = [] := by
    rw [List.dropWhile_eq_nil_iff]
    intro x hx
    simpa using fun e : x = ' ' => hs (e ▸ hx)
  constructor
  · simp only [headerToken]
    split_ifs
    · rfl
    · rw [splitOnSpace_second, if_neg hs]
      rfl
  · simp only [secondField]
    rw [hd]
    rfl

theorem headerToken_falsy_iff (authHeader : Option String) :
    (headerToken authHeader = none ∨ headerToken authHeader = some "") ↔
      secondField authHeader = "" := by
  cases authHeader with
  | none => simp [headerToken, secondField]
  | some h =>
    by_cases hs : ' ' ∈ h.toList
    · have he : h ≠ "" := by
        rintro rfl
        simp at hs
      rw [headerToken_some h he hs]
      simp
    · simp [(headerToken_none h hs).1, (headerToken_none h hs).2]

theorem headerToken_truthy (authHeader : Option String) (t : String)
    (h : headerToken authHeader = some t) : secondField authHeader = t := by
  cases authHeader with
  | none => simp [headerToken] at h
  | some a =>
    by_cases hs : ' ' ∈ a.toList
    · have he : a ≠ "" := by
        rintro rfl
        simp at hs
      rw [headerToken_some a he hs] at h
      exact Option.some.inj h
    · rw [(headerToken_none a hs).1] at h
      cases h

theorem auth_eq (verify : String → Option JwtPayload) (authHeader : Option String) :
    auth verify authHeader =
      if secondField authHeader = "" then .respond 401 "Unauthorized"
      else
        match verify (secondField authHeader) with
        | none => .respond 403 "Forbidden"
        | some user => .next user := by
  unfold auth
  cases ht : headerToken authHeader with
  | none =>
    rw [if_pos ((headerToken_falsy_iff authHeader).1 (Or.inl ht))]
  | some t =>
    have hsf := headerToken_truthy authHeader t ht
    rw [hsf]

theorem secondField_bearer (token : String) (h : ' ' ∉ token.toList) :
    secondField (some ("Bearer " ++ token)) = token := by
  have hl : ("Bearer " ++ token).toList =
      'B' :: 'e' :: 'a' :: 'r' :: 'e' :: 'r' :: ' ' :: token.toList := by
    show ("Bearer " ++ token).data = _
    rw [String.data_append]
    rfl
  have ht : token.toList.takeWhile (fun c => c != ' ') = token.toList := by
    rw [List.takeWhile_eq_self_iff]
    intro x hx
    simpa using fun e : x = ' ' => h (e ▸ hx)
  simp only [secondField]
  rw [hl]
  simp [List.dropWhile_cons]
  show String.mk (List.takeWhile (fun c => c != ' ') token.toList) = token
  rw [ht]
  rfl

/-- C10, as the code has it: `auth` takes as token the text between the first and
the second space of the Authorization header, whatever word comes before the first
space. It answers 401 without running the handler exactly when that text is empty
(header absent included), 403 without running the handler exactly when the text is
non-empty and `jwt.verify` rejects it, and runs the handler exactly with the
payload `jwt.verify` returns for it. For a header `Bearer <token>` (token without
spaces) that text is the token. -/
theorem auth_spec (verify : String → Option JwtPayload) (authHeader : Option String) :
    (auth verify authHeader = .respond 401 "Unauthorized" ↔ secondField authHeader = "") ∧
      (auth verify authHeader = .respond 403 "Forbidden" ↔
        secondField authHeader ≠ "" ∧ verify (secondField authHeader) = none) ∧
      (∀ user, auth verify authHeader = .next user ↔
        secondField authHeader ≠ "" ∧ verify (secondField authHeader) = some user) ∧
      (∀ status text, auth verify authHeader = .respond status text →
        (status = 401 ∧ text = "Unauthorized") ∨ (status = 403 ∧ text = "Forbidden")) ∧
      (∀ token : String, ' ' ∉ token.toList →
        secondField (some ("Bearer " ++ token)) = token) := by
  rw [auth_eq]
  refine ⟨?_, ?_, ?_, ?_, secondField_bearer⟩
  · by_cases h : secondField authHeader = ""
    · simp [h]
    · cases hv : verify (secondField authHeader) <;> simp [h]
  · by_cases h : secondField authHeader = ""
    · simp [h]
    · cases hv : verify (secondField authHeader) <;> simp [h]
  · intro user
    by_cases h : secondField authHeader = ""
    · simp [h]
    · cases hv : verify (secondField authHeader) <;> simp [h]
  · intro status text
    by_cases h : secondField authHeader = ""
    · simp [h]
      intro h1 h2
      exact Or.inl ⟨h1.symm, h2.symm⟩
    · cases hv : verify (secondField authHeader) <;> simp [h]
      intro h1 h2
      exact Or.inr ⟨h1.symm, h2.symm⟩

/-- An instance of C10: the header `Bearer abc` carries the token `abc`, which the
sample verifier accepts for user 10. -/
theorem auth_spec_witness :
    ' ' ∉ "abc".toList ∧ secondField (some ("Bearer " ++ "abc")) = "abc" ∧
      auth sampleVerify (some "Bearer abc") = .next { _id := 10 } ∧
      auth sampleVerify (some "Bearer") = .respond 401 "Unauthorized" ∧
      auth sampleVerify (some "Bearer abd") = .respond 403 "Forbidden" :=
  ⟨by decide, (auth_spec sampleVerify none).2.2.2.2 "abc" (by decide), by decide, by decide,
    by decide⟩

/-- C10 as stated fails: the header `Basic abc` carries no bearer token, yet `auth`
does not answer 401: it runs the handler when the second field verifies and
answers 403 when it does not. -/
theorem auth_not_only_bearer :
    bearerTokenOf (some "Basic abc") = none ∧
      auth sampleVerify (some "Basic abc") = .next { _id := 10 } ∧
      bearerTokenOf (some "Basic xyz") = none ∧
      auth sampleVerify (some "Basic xyz") = .respond 403 "Forbidden" := by
  decide

/-! ## Theorems: favorites reference existing locations -/

theorem isSome_find_update {Num : Type} (locations : List (Location Num)) (id j : ObjectId)
    (f : Location Num → Location Num) (hk : ∀ d, (f d)._id = d._id) :
    (findLocationById (updateFirst (fun d => d._id == id) f locations) j).isSome =
      (findLocationById locations j).isSome := by
  by_cases hj : j = id
  · subst hj
    cases h : findLocationById locations j with
    | none =>
      have : ∀ l : List (Location Num), findLocationById l j = none →
          updateFirst (fun d => d._id == j) f l = l := by
        intro l
        induction l with
        | nil => intro _; rfl
        | cons b bs ih =>
          intro hb
          unfold findLocationById at hb
          by_cases hbj : (b._id == j) = true
          · rw [find_cons_pos (fun d => d._id == j) b bs hbj] at hb
            cases hb
          · have hbj' : (b._id == j) = false := by simpa using hbj
            rw [find_cons_neg (fun d => d._id == j) b bs hbj'] at hb
            unfold updateFirst
            rw [if_neg hbj, ih hb]
      rw [this locations h, h]
    | some d => rw [findLocationById_update_same locations j f hk d h]; rfl
  · rw [findLocationById_update_other locations id j f hk hj]

theorem likeHandler_frame {Num : Type} (cast : String → Except String ObjectId) (db : Db Num)
    (locationId : String) :
    (likeHandler cast db locationId).2.users = db.users ∧
      ∀ j, (findLocationById (likeHandler cast db locationId).2.locations j).isSome =
        (findLocationById db.locations j).isSome := by
  cases hc : cast locationId with
  | error message =>
    rw [likeHandler_malformed cast db _ message hc]; exact ⟨rfl, fun _ => rfl⟩
  | ok id =>
    cases h : findLocationById db.locations id with
    | none => rw [likeHandler_missing cast db _ id hc h]; exact ⟨rfl, fun _ => rfl⟩
    | some location =>
      rw [likeHandler_found cast db _ id location hc h]
      exact ⟨rfl, fun j => isSome_find_update db.locations id j _ (fun _ => rfl)⟩

theorem dislikeHandler_frame {Num : Type} (cast : String → Except String ObjectId)
    (db : Db Num) (locationId : String) :
    (dislikeHandler cast db locationId).2.users = db.users ∧
      ∀ j, (findLocationById (dislikeHandler cast db locationId).2.locations j).isSome =
        (findLocationById db.locations j).isSome := by
  cases hc : cast locationId with
  | error message =>
    rw [dislikeHandler_malformed cast db _ message hc]; exact ⟨rfl, fun _ => rfl⟩
  | ok id =>
    cases h : findLocationById db.locations id with
    | none => rw [dislikeHandler_missing cast db _ id hc h]; exact ⟨rfl, fun _ => rfl⟩
    | some location =>
      rw [dislikeHandler_found cast db _ id location hc h]
      exact ⟨rfl, fun j => isSome_find_update db.locations id j _ (fun _ => rfl)⟩

theorem favoritesResolve_of_frame {Num : Type} (db db' : Db Num) (hu : db'.users = db.users)
    (hl : ∀ j, (findLocationById db'.locations j).isSome =
      (findLocationById db.locations j).isSome)
    (h : favoritesResolve db) : favoritesResolve db' := by
  intro u hmem f hf
  rw [hl]
  rw [hu] at hmem
  exact h u hmem f hf

theorem favoritesResolve_update {Num : Type} (db : Db Num) (id : ObjectId) (g : User → User)
    (hg : ∀ a ∈ db.users, ∀ f ∈ (g a).favorites,
      (findLocationById db.locations f).isSome = true)
    (h : favoritesResolve db) :
    favoritesResolve { db with users := updateFirst (fun d => d._id == id) g db.users } := by
  intro u hu f hfu
  rcases mem_updateFirst _ _ _ _ hu with hu | ⟨a, ha, _, rfl⟩
  · exact h u hu f hfu
  · exact hg a ha f hfu

theorem addFavoriteHandler_preserves {Num : Type} (cast : String → Except String ObjectId)
    (idEquals : String → ObjectId → Bool) (db : Db Num) (userId : ObjectId)
    (locationId : String)
    (hex : ∀ id, cast locationId = .ok id →
      (findLocationById db.locations id).isSome = true)
    (h : favoritesResolve db) :
    favoritesResolve (addFavoriteHandler cast idEquals db userId locationId).2 ∧
      (addFavoriteHandler cast idEquals db userId locationId).2.locations = db.locations := by
  cases hu : findUserById db.users userId with
  | none => rw [addFavoriteHandler_missing cast idEquals db _ _ hu]; exact ⟨h, rfl⟩
  | some user =>
    cases hm : user.favorites.any (fun f => idEquals locationId f) with
    | true => rw [addFavoriteHandler_present cast idEquals db _ _ user hu hm]; exact ⟨h, rfl⟩
    | false =>
      cases hc : cast locationId with
      | error message =>
        rw [addFavoriteHandler_malformed cast idEquals db _ _ message user hu hm hc]
        exact ⟨h, rfl⟩
      | ok id =>
        rw [addFavoriteHandler_fresh cast idEquals db _ _ user id hu hm hc]
        refine ⟨favoritesResolve_update db userId _ ?_ h, rfl⟩
        intro a ha f hf
        rcases List.mem_append.1 hf with hf | hf
        · exact h a ha f hf
        · rw [List.mem_singleton.1 hf]; exact hex id hc

theorem removeFavoriteHandler_preserves {Num : Type}
    (cast : String → Except String ObjectId) (db : Db Num) (userId : ObjectId)
    (locationId : String) (h : favoritesResolve db) :
    favoritesResolve (removeFavoriteHandler cast db userId locationId).2 ∧
      (removeFavoriteHandler cast db userId locationId).2.locations = db.locations := by
  cases hu : findUserById db.users userId with
  | none => rw [removeFavoriteHandler_missing cast db _ _ hu]; exact ⟨h, rfl⟩
  | some user =>
    cases hc : cast locationId with
    | error message =>
      rw [removeFavoriteHandler_malformed cast db _ _ message user hu hc]; exact ⟨h, rfl⟩
    | ok id =>
      rw [removeFavoriteHandler_found cast db _ _ user id hu hc]
      refine ⟨favoritesResolve_update db userId _ ?_ h, rfl⟩
      intro a ha f hf
      exact h a ha f (List.mem_filter.1 hf).1

theorem registerHandler_preserves {Num : Type} (env : Env) (db : Db Num)
    (name email password : String) (h : favoritesResolve db) :
    favoritesResolve (registerHandler env db name email password).2 ∧
      (registerHandler env db name email password).2.locations = db.locations := by
  unfold registerHandler
  cases findUserByEmail db.users email with
  | some _ => exact ⟨h, rfl⟩
  | none =>
    simp only
    split_ifs
    · exact ⟨h, rfl⟩
    · refine ⟨?_, rfl⟩
      intro u hu f hf
      rcases List.mem_append.1 hu with hu | hu
      · exact h u hu f hf
      · rw [List.mem_singleton.1 hu] at hf
        cases hf

theorem apiStep_preserves {Num : Type} (env : Env) (db : Db Num) (r : ApiRequest)
    (h : favoritesResolve db)
    (hr : ∀ a lid, r = .addFavorite a lid → ∀ id, env.castObjectId lid = .ok id →
      (findLocationById db.locations id).isSome = true) :
    favoritesResolve (apiStep env db r).2 ∧
      ∀ j, (findLocationById (apiStep env db r).2.locations j).isSome =
        (findLocationById db.locations j).isSome := by
  cases r with
  | getLocations => exact ⟨h, fun _ => rfl⟩
  | like id =>
    exact ⟨favoritesResolve_of_frame db _ (likeHandler_frame env.castObjectId db id).1
      (likeHandler_frame env.castObjectId db id).2 h, (likeHandler_frame env.castObjectId db id).2⟩
  | dislike id =>
    exact ⟨favoritesResolve_of_frame db _ (dislikeHandler_frame env.castObjectId db id).1
      (dislikeHandler_frame env.castObjectId db id).2 h,
      (dislikeHandler_frame env.castObjectId db id).2⟩
  | register name email password =>
    have := registerHandler_preserves env db name email password h
    exact ⟨this.1, fun j => by show (findLocationById
      (registerHandler env db name email password).2.locations j).isSome = _; rw [this.2]⟩
  | login email password =>
    simp only [apiStep, loginHandler]
    cases findUserByEmail db.users email with
    | none => exact ⟨h, fun _ => rfl⟩
    | some user =>
      simp only
      split_ifs <;> exact ⟨h, fun _ => rfl⟩
  | listFavorites a =>
    simp only [apiStep, withAuth, listFavoritesHandler]
    cases auth env.verify a with
    | respond s t => exact ⟨h, fun _ => rfl⟩
    | next user =>
      simp only
      cases findUserById db.users user._id <;> exact ⟨h, fun _ => rfl⟩
  | addFavorite a lid =>
    simp only [apiStep, withAuth]
    cases auth env.verify a with
    | respond s t => exact ⟨h, fun _ => rfl⟩
    | next user =>
      have := addFavoriteHandler_preserves env.castObjectId env.idEquals db user._id lid
        (hr a lid rfl) h
      exact ⟨this.1, fun j => by
        show (findLocationById (addFavoriteHandler env.castObjectId env.idEquals db user._id
          lid).2.locations j).isSome = _
        rw [this.2]⟩
  | removeFavorite a lid =>
    simp only [apiStep, withAuth]
    cases auth env.verify a with
    | respond s t => exact ⟨h, fun _ => rfl⟩
    | next user =>
      have := removeFavoriteHandler_preserves env.castObjectId db user._id lid h
      exact ⟨this.1, fun j => by
        show (findLocationById (removeFavoriteHandler env.castObjectId db user._id
          lid).2.locations j).isSome = _
        rw [this.2]⟩

/-- C8, as the code has it: the add-favorite handler does not look the location up,
so the invariant rests on the requests. From a state in which every favorites
entry references an existing Location, every sequence of API requests whose
add-favorite requests name existing location ids (whenever their route parameter
is a well-formed id, some stored Location has it) leads to a state in which every
favorites entry of every user references an existing Location. -/
theorem favorites_resolve_reachable {Num : Type} (env : Env) (db : Db Num)
    (requests : List ApiRequest) (h : favoritesResolve db)
    (hr : ∀ r ∈ requests, ∀ a lid, r = .addFavorite a lid →
      ∀ id, env.castObjectId lid = .ok id →
        (findLocationById db.locations id).isSome = true) :
    favoritesResolve (runApi env db requests) := by
  induction requests generalizing db with
  | nil => exact h
  | cons r rs ih =>
    have hstep := apiStep_preserves env db r h (hr r (List.mem_cons_self _ _))
    refine ih (apiStep env db r).2 hstep.1 ?_
    intro r' hr' a lid e id hc
    rw [hstep.2]
    exact hr r' (List.mem_cons_of_mem _ hr') a lid e id hc

/-- An instance of C8 on the sample database: a like, a registration, an
add-favorite for the existing location 1, a remove-favorite and an add-favorite
with a parameter that is not a well-formed id. -/
theorem favorites_resolve_reachable_witness :
    favoritesResolve sampleDb ∧
      favoritesResolve
        (runApi sampleEnv sampleDb
          [.like "1", .register "Bo" "bo@example.org" "pw",
            .addFavorite (some "Bearer abc") "1", .removeFavorite (some "Bearer abc") "2",
            .addFavorite (some "Bearer abc") "xyz"]) :=
  have h : favoritesResolve sampleDb := by
    unfold favoritesResolve
    decide
  ⟨h, favorites_resolve_reachable sampleEnv sampleDb _ h (by
    intro r hr a lid e id hc
    subst e
    simp at hr
    rcases hr with ⟨_, rfl⟩ | ⟨_, rfl⟩
    · obtain rfl : (1 : Nat) = id := Except.ok.inj hc
      decide
    · cases hc)⟩

/-- C8 as stated fails: on the sample database, where every favorite resolves, an
add-favorite request for the id 99, which no location has, is answered 200 and
leaves a favorites entry that references no Location. -/
theorem addFavorite_unknown_location :
    favoritesResolve sampleDb ∧
      findLocationById sampleDb.locations 99 = none ∧
      (apiStep sampleEnv sampleDb (.addFavorite (some "Bearer abc") "99")).1 =
        { status := 200, body := .message "Location saved to favorites" } ∧
      findUserById
          (apiStep sampleEnv sampleDb (.addFavorite (some "Bearer abc") "99")).2.users 10 =
        some { _id := 10, name := "Ana", email := "ana@example.org", password := "$2a$10$h",
               favorites := [2, 99] } ∧
      ¬ favoritesResolve
          (apiStep sampleEnv sampleDb (.addFavorite (some "Bearer abc") "99")).2 := by
  refine ⟨?_, by decide, by decide, by decide, ?_⟩
  · unfold favoritesResolve
    decide
  · unfold favoritesResolve
    decide

/-! ## Theorems: concurrent like requests -/

theorem stepAt_append {Num : Type} (cast : String → Except String ObjectId)
    (pre : List (LikeTask Num)) (t : LikeTask Num)
    (post : List (LikeTask Num)) (locations : List (Location Num)) :
    stepAt cast pre.length (pre ++ t :: post) locations =
      (pre ++ (likeTaskStep cast locations t).1 :: post, (likeTaskStep cast locations t).2) := by
  induction pre with
  | nil => rfl
  | cons p ps ih =>
    show stepAt cast (ps.length + 1) (p :: (ps ++ t :: post)) locations = _
    simp only [stepAt, ih]
    rfl

theorem stepAt_cases {Num : Type} (cast : String → Except String ObjectId) (i : Nat)
    (tasks : List (LikeTask Num))
    (locations : List (Location Num)) :
    stepAt cast i tasks locations = (tasks, locations) ∨
      ∃ pre t post, tasks = pre ++ t :: post ∧
        stepAt cast i tasks locations =
          (pre ++ (likeTaskStep cast locations t).1 :: post, (likeTaskStep cast locations t).2) := by
  induction tasks generalizing i with
  | nil => exact Or.inl (by cases i <;> rfl)
  | cons t ts ih =>
    cases i with
    | zero => exact Or.inr ⟨[], t, ts, rfl, rfl⟩
    | succ i =>
      rcases ih i with h | ⟨pre, t', post, hts, h⟩
      · exact Or.inl (by simp only [stepAt, h])
      · refine Or.inr ⟨t :: pre, t', post, by rw [hts]; rfl, ?_⟩
        simp only [stepAt, h]
        rfl

theorem likeTaskOk_mono {Num : Type} (cast : String → Except String ObjectId) (id : ObjectId)
    (likes0 dislikes0 w w' : Nat)
    (hw : w ≤ w') (t : LikeTask Num) (h : likeTaskOk cast id likes0 dislikes0 w t) :
    likeTaskOk cast id likes0 dislikes0 w' t := by
  cases t with
  | start _ => exact h
  | loaded location =>
    obtain ⟨h1, h2, h3, h4⟩ := h
    exact ⟨h1, h2, h3, by omega⟩
  | done _ => trivial

theorem countP_mid {Num : Type} (pre : List (LikeTask Num)) (t : LikeTask Num)
    (post : List (LikeTask Num)) :
    (pre ++ t :: post).countP LikeTask.isDone =
      pre.countP LikeTask.isDone + (if t.isDone then 1 else 0) + post.countP LikeTask.isDone := by
  rw [List.countP_append, List.countP_cons]
  omega

theorem likeRaceInv_mid {Num : Type} (cast : String → Except String ObjectId) (id : ObjectId)
    (likes0 dislikes0 : Nat)
    (pre : List (LikeTask Num)) (t : LikeTask Num) (post : List (LikeTask Num))
    (locations : List (Location Num))
    (h : likeRaceInv cast id likes0 dislikes0 (pre ++ t :: post) locations) :
    likeRaceInv cast id likes0 dislikes0 (pre ++ (likeTaskStep cast locations t).1 :: post)
      (likeTaskStep cast locations t).2 := by
  obtain ⟨⟨d, hd, hdd, hlo, hhi, hone⟩, htasks⟩ := h
  have ht := htasks t (by simp)
  have hrest : ∀ x, x ∈ pre ∨ x ∈ post →
      likeTaskOk cast id likes0 dislikes0 ((pre ++ t :: post).countP LikeTask.isDone) x := by
    intro x hx
    exact htasks x (by rcases hx with hx | hx <;> simp [hx])
  rw [countP_mid] at hhi hone ht hrest
  cases t with
  | start lid =>
    have hlid : cast lid = .ok id := ht
    have hstep : likeTaskStep cast locations (.start lid) =
        (.loaded { d with likes := d.likes + 1 }, locations) := by
      simp only [likeTaskStep, hlid, hd]
    rw [hstep]
    simp only [LikeTask.isDone] at hhi hone hrest
    refine ⟨⟨d, hd, hdd, hlo, ?_, ?_⟩, ?_⟩
    · rw [countP_mid]; simpa [LikeTask.isDone] using hhi
    · rw [countP_mid]; simpa [LikeTask.isDone] using hone
    · intro x hx
      rw [countP_mid]
      simp only [LikeTask.isDone]
      rcases List.mem_append.1 hx with hx | hx
      · exact hrest x (Or.inl hx)
      · rcases List.mem_cons.1 hx with hx | hx
        · subst hx
          refine ⟨findLocationById_id locations id d hd, hdd, ?_, ?_⟩
          · show likes0 + 1 ≤ d.likes + 1
            omega
          · show d.likes + 1 ≤ _
            simp at hhi ⊢
            omega
        · exact hrest x (Or.inr hx)
  | loaded location =>
    obtain ⟨h1, h2, h3, h4⟩ := ht
    have hstep : likeTaskStep cast locations (.loaded location) =
        (.done { status := 200, body := .votes location.likes location.dislikes },
          updateFirst (fun d => d._id == id) (fun d => { d with likes := location.likes })
            locations) := by
      simp only [likeTaskStep, saveLikes, h1]
    rw [hstep]
    simp only [LikeTask.isDone] at hhi hone hrest h4
    have hfind := findLocationById_update_same locations id
      (fun d => { d with likes := location.likes }) (fun _ => rfl) d hd
    refine ⟨⟨_, hfind, hdd, ?_, ?_, ?_⟩, ?_⟩
    · show likes0 ≤ location.likes
      omega
    · rw [countP_mid]
      show location.likes ≤ _
      simp [LikeTask.isDone] at h4 ⊢
      omega
    · intro _
      show likes0 + 1 ≤ location.likes
      exact h3
    · intro x hx
      rw [countP_mid]
      simp only [LikeTask.isDone]
      rcases List.mem_append.1 hx with hx | hx
      · exact likeTaskOk_mono cast _ _ _ _ _ (by simp) x (hrest x (Or.inl hx))
      · rcases List.mem_cons.1 hx with hx | hx
        · subst hx
          trivial
        · exact likeTaskOk_mono cast _ _ _ _ _ (by simp) x (hrest x (Or.inr hx))
  | done r =>
    have hstep : likeTaskStep cast locations (.done r) = (.done r, locations) := rfl
    rw [hstep]
    exact ⟨⟨d, hd, hdd, hlo, by rw [countP_mid]; exact hhi, by rw [countP_mid]; exact hone⟩,
      htasks⟩

theorem likeRaceInv_stepAt {Num : Type} (cast : String → Except String ObjectId)
    (id : ObjectId) (likes0 dislikes0 : Nat) (i : Nat)
    (tasks : List (LikeTask Num)) (locations : List (Location Num))
    (h : likeRaceInv cast id likes0 dislikes0 tasks locations) :
    likeRaceInv cast id likes0 dislikes0 (stepAt cast i tasks locations).1
      (stepAt cast i tasks locations).2 := by
  rcases stepAt_cases cast i tasks locations with hs | ⟨pre, t, post, rfl, hs⟩
  · rw [hs]; exact h
  · rw [hs]; exact likeRaceInv_mid cast id likes0 dislikes0 pre t post locations h

theorem stepAt_length {Num : Type} (cast : String → Except String ObjectId) (i : Nat)
    (tasks : List (LikeTask Num)) (locations : List (Location Num)) :
    (stepAt cast i tasks locations).1.length = tasks.length := by
  rcases stepAt_cases cast i tasks locations with hs | ⟨pre, t, post, rfl, hs⟩
  · rw [hs]
  · rw [hs]; simp

theorem runSchedule_inv {Num : Type} (cast : String → Except String ObjectId) (id : ObjectId)
    (likes0 dislikes0 : Nat) (schedule : List Nat) (tasks : List (LikeTask Num))
    (locations : List (Location Num))
    (h : likeRaceInv cast id likes0 dislikes0 tasks locations) :
    likeRaceInv cast id likes0 dislikes0 (runSchedule cast schedule tasks locations).1
        (runSchedule cast schedule tasks locations).2 ∧
      (runSchedule cast schedule tasks locations).1.length = tasks.length := by
  induction schedule generalizing tasks locations with
  | nil => exact ⟨h, rfl⟩
  | cons i rest ih =>
    have := ih (stepAt cast i tasks locations).1 (stepAt cast i tasks locations).2
      (likeRaceInv_stepAt cast id likes0 dislikes0 i tasks locations h)
    exact ⟨this.1, this.2.trans (stepAt_length cast i tasks locations)⟩

theorem likeRaceInv_init {Num : Type} (cast : String → Except String ObjectId)
    (locationId : String) (id : ObjectId) (n : Nat) (locations : List (Location Num))
    (d0 : Location Num) (hc : cast locationId = .ok id)
    (h0 : findLocationById locations id = some d0) :
    likeRaceInv cast id d0.likes d0.dislikes (likeRequests Num n locationId) locations := by
  have hcount : (likeRequests Num n locationId).countP LikeTask.isDone = 0 := by
    rw [List.countP_eq_zero]
    intro t ht
    rw [List.eq_of_mem_replicate ht]
    simp [LikeTask.isDone]
  refine ⟨⟨d0, h0, rfl, le_refl _, Nat.le_add_right _ _, ?_⟩, ?_⟩
  · rw [hcount]; intro h; omega
  · intro t ht
    rw [List.eq_of_mem_replicate ht]
    exact hc

theorem likeTask_two_steps {Num : Type} (cast : String → Except String ObjectId)
    (db : Db Num) (locationId : String) :
    (likeTaskStep cast (likeTaskStep cast db.locations (.start locationId)).2
        (likeTaskStep cast db.locations (.start locationId)).1).1 =
        .done (likeHandler cast db locationId).1 ∧
      (likeTaskStep cast (likeTaskStep cast db.locations (.start locationId)).2
        (likeTaskStep cast db.locations (.start locationId)).1).2 =
        (likeHandler cast db locationId).2.locations ∧
      (likeHandler cast db locationId).2.users = db.users := by
  unfold likeHandler
  simp only [likeTaskStep]
  cases cast locationId with
  | error message => exact ⟨rfl, rfl, rfl⟩
  | ok id =>
    simp only
    cases findLocationById db.locations id with
    | none => exact ⟨rfl, rfl, rfl⟩
    | some location => exact ⟨rfl, rfl, rfl⟩

theorem runSchedule_serialFrom {Num : Type} (cast : String → Except String ObjectId)
    (locationId : String) (k : Nat) (pre : List (LikeTask Num)) (db : Db Num) :
    (runSchedule cast (serialFrom pre.length k) (pre ++ likeRequests Num k locationId)
          db.locations).2 =
        (likeTimes cast locationId k db).locations ∧
      ∃ dones : List (LikeTask Num),
        (runSchedule cast (serialFrom pre.length k) (pre ++ likeRequests Num k locationId)
              db.locations).1 =
            pre ++ dones ∧
          ∀ t ∈ dones, t.isDone = true := by
  induction k generalizing pre db with
  | zero => exact ⟨rfl, [], rfl, fun _ h => absurd h (List.not_mem_nil _)⟩
  | succ k ih =>
    obtain ⟨h1, h2, _⟩ := likeTask_two_steps cast db locationId
    have hreq : likeRequests Num (k + 1) locationId =
        .start locationId :: likeRequests Num k locationId := rfl
    have hlen : (pre ++ [LikeTask.done (likeHandler cast db locationId).1]).length =
        pre.length + 1 := by
      simp
    have hrun : runSchedule cast (serialFrom pre.length (k + 1))
        (pre ++ likeRequests Num (k + 1) locationId) db.locations =
        runSchedule cast (serialFrom (pre.length + 1) k)
          ((pre ++ [LikeTask.done (likeHandler cast db locationId).1]) ++
            likeRequests Num k locationId)
          (likeHandler cast db locationId).2.locations := by
      rw [hreq]
      simp only [serialFrom, runSchedule]
      rw [stepAt_append]
      simp only
      rw [stepAt_append]
      simp only
      rw [h1, h2]
      simp
    rw [hrun]
    obtain ⟨ih1, dones, ih2, ih3⟩ :=
      ih (pre ++ [LikeTask.done (likeHandler cast db locationId).1])
        (likeHandler cast db locationId).2
    rw [hlen] at ih1 ih2
    refine ⟨ih1, LikeTask.done (likeHandler cast db locationId).1 :: dones, ?_, ?_⟩
    · rw [ih2]; simp
    · intro t ht
      rcases List.mem_cons.1 ht with ht | ht
      · rw [ht]; rfl
      · exact ih3 t ht

theorem likeTimes_found {Num : Type} (cast : String → Except String ObjectId)
    (locationId : String) (id : ObjectId) (n : Nat) (db : Db Num) (d0 : Location Num)
    (hc : cast locationId = .ok id) (h0 : findLocationById db.locations id = some d0) :
    findLocationById (likeTimes cast locationId n db).locations id =
      some { d0 with likes := d0.likes + n } := by
  induction n generalizing db d0 with
  | zero => exact h0
  | succ n ih =>
    have hstep : findLocationById (likeHandler cast db locationId).2.locations id =
        some { d0 with likes := d0.likes + 1 } := by
      rw [likeHandler_found cast db locationId id d0 hc h0]
      exact findLocationById_update_same db.locations id
        (fun d => { d with likes := d0.likes + 1 }) (fun _ => rfl) d0 h0
    have := ih (likeHandler cast db locationId).2 _ hstep
    show findLocationById
      (likeTimes cast locationId n (likeHandler cast db locationId).2).locations id = _
    rw [this]
    simp only [Option.some.injEq]
    congr 1
    omega

/-- C6, as the code has it: a like request reads the document and later writes the
incremented value back, so requests that interleave can overwrite each other. For
`n` like requests whose route parameter is the id of an existing location: when
they run one after another the like counter ends exactly `n` higher; in every
interleaving in which all `n` requests complete the dislike counter is unchanged
and the like counter ends at least 1 and at most `n` higher. -/
theorem concurrent_likes_spec {Num : Type} (cast : String → Except String ObjectId)
    (db : Db Num) (locationId : String) (id : ObjectId) (d0 : Location Num) (n : Nat)
    (hn : 1 ≤ n) (hc : cast locationId = .ok id)
    (h0 : findLocationById db.locations id = some d0) :
    ((runSchedule cast (serialSchedule n) (likeRequests Num n locationId) db.locations).1.all
          LikeTask.isDone = true ∧
        (runSchedule cast (serialSchedule n) (likeRequests Num n locationId) db.locations).2 =
          (likeTimes cast locationId n db).locations ∧
        findLocationById (likeTimes cast locationId n db).locations id =
          some { d0 with likes := d0.likes + n }) ∧
      ∀ schedule : List Nat,
        (runSchedule cast schedule (likeRequests Num n locationId) db.locations).1.all
            LikeTask.isDone = true →
          ∃ d, findLocationById
                (runSchedule cast schedule (likeRequests Num n locationId) db.locations).2 id =
              some d ∧
            d.dislikes = d0.dislikes ∧ d0.likes + 1 ≤ d.likes ∧ d.likes ≤ d0.likes + n := by
  constructor
  · obtain ⟨hs, dones, hd, hall⟩ :=
      runSchedule_serialFrom cast locationId n ([] : List (LikeTask Num)) db
    simp only [List.length_nil, List.nil_append] at hs hd
    refine ⟨?_, hs, likeTimes_found cast locationId id n db d0 hc h0⟩
    show (runSchedule cast (serialFrom 0 n) (likeRequests Num n locationId)
      db.locations).1.all LikeTask.isDone = true
    rw [hd, List.all_eq_true]
    exact hall
  · intro schedule hdone
    obtain ⟨⟨⟨d, hd, hdd, _, hhi, hone⟩, _⟩, hlen⟩ :=
      runSchedule_inv cast id d0.likes d0.dislikes schedule (likeRequests Num n locationId)
        db.locations (likeRaceInv_init cast locationId id n db.locations d0 hc h0)
    have hcount : (runSchedule cast schedule (likeRequests Num n locationId)
        db.locations).1.countP LikeTask.isDone = n := by
      rw [List.countP_eq_length.2 (List.all_eq_true.1 hdone), hlen]
      simp [likeRequests]
    rw [hcount] at hhi hone
    exact ⟨d, hd, hdd, hone hn, hhi⟩

/-- An instance of C6 on the sample database (location 1 has 3 likes and 1 dislike):
two like requests served one after another end at 5 likes and 1 dislike. -/
theorem concurrent_likes_spec_witness :
    1 ≤ 2 ∧ sampleCast "1" = .ok 1 ∧ findLocationById sampleDb.locations 1 = some sampleA ∧
      findLocationById (likeTimes sampleCast "1" 2 sampleDb).locations 1 =
        some { sampleA with likes := 5, dislikes := 1 } :=
  ⟨by decide, rfl, rfl,
    (concurrent_likes_spec sampleCast sampleDb "1" 1 sampleA 2 (by decide) rfl rfl).1.2.2⟩

/-- C6 as stated fails: with 3 likes and 1 dislike stored, two like requests that
both read before either writes both complete with 200 and leave 4 likes, not 5. -/
theorem concurrent_likes_lost_update :
    findLocationById sampleDb.locations 1 = some { sampleA with likes := 3, dislikes := 1 } ∧
      (runSchedule sampleCast [0, 1, 0, 1] (likeRequests Nat 2 "1") sampleDb.locations).1 =
        [.done { status := 200, body := .votes 4 1 },
          .done { status := 200, body := .votes 4 1 }] ∧
      findLocationById
          (runSchedule sampleCast [0, 1, 0, 1] (likeRequests Nat 2 "1") sampleDb.locations).2 1 =
        some { sampleA with likes := 4, dislikes := 1 } := by
  decide

/-! ## Theorems: login -/

theorem findUserByEmail_none_iff (users : List User) (email : String) :
    findUserByEmail users email = none ↔ ∀ u ∈ users, u.email ≠ email := by
  unfold findUserByEmail
  rw [List.find?_eq_none]
  constructor
  · intro h u hu
    simpa using h u hu
  · intro h u hu
    simpa using h u hu

theorem findUserByEmail_some (users : List User) (email : String) (user : User)
    (h : findUserByEmail users email = some user) : user ∈ users ∧ user.email = email := by
  refine ⟨List.mem_of_find?_eq_some h, ?_⟩
  have := List.find?_some h
  simpa using this

theorem loginHandler_missing {Num : Type} (env : Env) (db : Db Num) (email password : String)
    (h : findUserByEmail db.users email = none) :
    loginHandler env db email password =
      ({ status := 404, body := .message "User not found." }, db) := by
  unfold loginHandler
  rw [h]

theorem loginHandler_match {Num : Type} (env : Env) (db : Db Num) (email password : String)
    (user : User) (h : findUserByEmail db.users email = some user)
    (hc : env.compare password user.password = true) :
    loginHandler env db email password =
      ({ status := 200, body := .token (env.sign user._id) }, db) := by
  unfold loginHandler
  rw [h]
  simp [hc]

theorem loginHandler_mismatch {Num : Type} (env : Env) (db : Db Num)
    (email password : String) (user : User) (h : findUserByEmail db.users email = some user)
    (hc : env.compare password user.password = false) :
    loginHandler env db email password =
      ({ status := 400, body := .message "Invalid credentials." }, db) := by
  unfold loginHandler
  rw [h]
  simp [hc]

theorem findUserByEmail_of_unique (users : List User) (email : String) (u : User)
    (hu : emailsUnique users) (hmem : u ∈ users) (he : u.email = email) :
    findUserByEmail users email = some u := by
  cases h : findUserByEmail users email with
  | none => exact absurd he ((findUserByEmail_none_iff users email).1 h u hmem)
  | some v =>
    obtain ⟨hv, hve⟩ := findUserByEmail_some users email v h
    rw [hu v hv u hmem (hve.trans he.symm)]

/-- C11: the login handler answers 404 when no stored user has exactly that email;
when a user has it, it answers 200 with a token signed for that user's id if the
password verifies against the stored hash, and 400 "Invalid credentials." if it
does not. With emails unique in the store, the answer is 200 if and only if some
stored user has that email and the password verifies against that user's hash. A
token is only ever sent with status 200, and the store is never changed. -/
theorem login_spec {Num : Type} (env : Env) (db : Db Num) (email password : String) :
    ((∀ u ∈ db.users, u.email ≠ email) →
        loginHandler env db email password =
          ({ status := 404, body := .message "User not found." }, db)) ∧
      (∀ user, findUserByEmail db.users email = some user →
        user ∈ db.users ∧ user.email = email ∧
          (env.compare password user.password = true →
            loginHandler env db email password =
              ({ status := 200, body := .token (env.sign user._id) }, db)) ∧
          (env.compare password user.password = false →
            loginHandler env db email password =
              ({ status := 400, body := .message "Invalid credentials." }, db))) ∧
      (emailsUnique db.users →
        ((loginHandler env db email password).1.status = 200 ↔
            ∃ u ∈ db.users, u.email = email ∧ env.compare password u.password = true) ∧
          (∀ u ∈ db.users, u.email = email → env.compare password u.password = true →
            loginHandler env db email password =
              ({ status := 200, body := .token (env.sign u._id) }, db)) ∧
          (∀ u ∈ db.users, u.email = email → env.compare password u.password = false →
            loginHandler env db email password =
              ({ status := 400, body := .message "Invalid credentials." }, db))) ∧
      (∀ t, (loginHandler env db email password).1.body = .token t →
        (loginHandler env db email password).1.status = 200 ∧
          ∃ user, findUserByEmail db.users email = some user ∧
            env.compare password user.password = true ∧ t = env.sign user._id) ∧
      (loginHandler env db email password).2 = db := by
  refine ⟨fun h => loginHandler_missing env db email password
      ((findUserByEmail_none_iff _ _).2 h), ?_, ?_, ?_, ?_⟩
  · intro user h
    obtain ⟨hm, he⟩ := findUserByEmail_some db.users email user h
    exact ⟨hm, he, loginHandler_match env db email password user h,
      loginHandler_mismatch env db email password user h⟩
  · intro hu
    refine ⟨?_, ?_, ?_⟩
    · constructor
      · intro hs
        cases h : findUserByEmail db.users email with
        | none =>
          rw [loginHandler_missing env db email password h] at hs
          cases hs
        | some user =>
          obtain ⟨hm, he⟩ := findUserByEmail_some db.users email user h
          cases hc : env.compare password user.password with
          | false =>
            rw [loginHandler_mismatch env db email password user h hc] at hs
            cases hs
          | true => exact ⟨user, hm, he, hc⟩
      · rintro ⟨u, hm, he, hc⟩
        rw [loginHandler_match env db email password u
          (findUserByEmail_of_unique db.users email u hu hm he) hc]
    · intro u hm he hc
      exact loginHandler_match env db email password u
        (findUserByEmail_of_unique db.users email u hu hm he) hc
    · intro u hm he hc
      exact loginHandler_mismatch env db email password u
        (findUserByEmail_of_unique db.users email u hu hm he) hc
  · intro t ht
    cases h : findUserByEmail db.users email with
    | none =>
      rw [loginHandler_missing env db email password h] at ht
      cases ht
    | some user =>
      cases hc : env.compare password user.password with
      | false =>
        rw [loginHandler_mismatch env db email password user h hc] at ht
        cases ht
      | true =>
        rw [loginHandler_match env db email password user h hc] at ht ⊢
        injection ht with ht
        exact ⟨rfl, user, rfl, hc, ht.symm⟩
  · cases h : findUserByEmail db.users email with
    | none => rw [loginHandler_missing env db email password h]
    | some user =>
      cases hc : env.compare password user.password with
      | false => rw [loginHandler_mismatch env db email password user h hc]
      | true => rw [loginHandler_match env db email password user h hc]

/-- An instance of C11 on the account database: the right password for
`ana@example.org` yields the token signed for user 10, which `auth` accepts for
that user; a wrong password yields 400; an unknown email yields 404. -/
theorem login_spec_witness :
    emailsUnique accountDb.users ∧ sampleAna ∈ accountDb.users ∧
      sampleEnv.compare "pw" sampleAna.password = true ∧
      (loginHandler sampleEnv accountDb "ana@example.org" "pw").1 =
        { status := 200, body := .token "abc" } ∧
      auth sampleEnv.verify (some "Bearer abc") = .next { _id := 10 } ∧
      sampleEnv.compare "pW" sampleAna.password = false ∧
      (loginHandler sampleEnv accountDb "ana@example.org" "pW").1 =
        { status := 400, body := .message "Invalid credentials." } ∧
      (loginHandler sampleEnv accountDb "Ana@example.org" "pw").1 =
        { status := 404, body := .message "User not found." } :=
  have hu : emailsUnique accountDb.users := by
    unfold emailsUnique
    decide
  have hspec := (login_spec sampleEnv accountDb "ana@example.org" "pw").2.2.1 hu
  ⟨hu, by decide, by decide,
    congrArg Prod.fst (hspec.2.1 sampleAna (by decide) rfl (by decide)), by decide, by decide,
    congrArg Prod.fst
      (((login_spec sampleEnv accountDb "ana@example.org" "pW").2.2.1 hu).2.2 sampleAna
        (by decide) rfl (by decide)),
    congrArg Prod.fst
      ((login_spec sampleEnv accountDb "Ana@example.org" "pw").1 (by decide))⟩

/-! ## Theorems: register -/

theorem registerHandler_conflict {Num : Type} (env : Env) (db : Db Num)
    (name email password : String) (user : User)
    (h : findUserByEmail db.users email = some user) :
    registerHandler env db name email password =
      ({ status := 400, body := .message "Email already exists. Please choose another." },
        db) := by
  unfold registerHandler
  rw [h]

theorem registerHandler_invalid {Num : Type} (env : Env) (db : Db Num)
    (name email password : String) (h : findUserByEmail db.users email = none)
    (hv : name = "" ∨ email = "" ∨ password = "") :
    registerHandler env db name email password =
      ({ status := 500, body := .message "Failed to register user. Please try again later." },
        db) := by
  unfold registerHandler
  rw [h]
  simp only
  rw [if_pos hv]

theorem registerHandler_created {Num : Type} (env : Env) (db : Db Num)
    (name email password : String) (h : findUserByEmail db.users email = none)
    (hn : name ≠ "") (he : email ≠ "") (hp : password ≠ "") :
    registerHandler env db name email password =
      ({ status := 302, body := .redirect "/login" },
        { db with
          users := db.users ++
            [{ _id := env.newId db.users, name := name, email := email,
               password := env.hash password, favorites := [] }] }) := by
  unfold registerHandler
  rw [h]
  simp only
  rw [if_neg (by simp [hn, he, hp])]

/-- C12, as the code has it: when some stored user has exactly that email, the
register handler answers 400 whatever the name and password are and leaves the
store unchanged. Otherwise, when name, email and password are all non-empty, it
appends one new user with that name and email, an empty favorites list and the
hash of the password, and redirects to the login page; when one of the three is
empty, the required-field validation of the schema fails on save, the handler
answers 500 and the store is unchanged. Locations are never touched. -/
theorem register_spec {Num : Type} (env : Env) (db : Db Num) (name email password : String) :
    ((∃ u ∈ db.users, u.email = email) →
        registerHandler env db name email password =
          ({ status := 400, body := .message "Email already exists. Please choose another." },
            db)) ∧
      ((∀ u ∈ db.users, u.email ≠ email) → name ≠ "" → email ≠ "" → password ≠ "" →
        registerHandler env db name email password =
          ({ status := 302, body := .redirect "/login" },
            { db with
              users := db.users ++
                [{ _id := env.newId db.users, name := name, email := email,
                   password := env.hash password, favorites := [] }] })) ∧
      ((∀ u ∈ db.users, u.email ≠ email) → (name = "" ∨ email = "" ∨ password = "") →
        registerHandler env db name email password =
          ({ status := 500,
             body := .message "Failed to register user. Please try again later." }, db)) ∧
      (registerHandler env db name email password).2.locations = db.locations := by
  refine ⟨?_, ?_, ?_, ?_⟩
  · rintro ⟨u, hu, he⟩
    cases h : findUserByEmail db.users email with
    | none => exact absurd he ((findUserByEmail_none_iff _ _).1 h u hu)
    | some user => exact registerHandler_conflict env db name email password user h
  · intro h hn he hp
    exact registerHandler_created env db name email password
      ((findUserByEmail_none_iff _ _).2 h) hn he hp
  · intro h hv
    exact registerHandler_invalid env db name email password
      ((findUserByEmail_none_iff _ _).2 h) hv
  · cases h : findUserByEmail db.users email with
    | some user => rw [registerHandler_conflict env db name email password user h]
    | none =>
      by_cases hv : name = "" ∨ email = "" ∨ password = ""
      · rw [registerHandler_invalid env db name email password h hv]
      · simp only [not_or] at hv
        rw [registerHandler_created env db name email password h hv.1 hv.2.1 hv.2.2]

/-- An instance of C12 on the account database: registering Bo appends one user
with the hashed password and no favorites; registering with Ana's email again is
answered 400 and changes nothing. -/
theorem register_spec_witness :
    (∀ u ∈ accountDb.users, u.email ≠ "bo@example.org") ∧
      (registerHandler sampleEnv accountDb "Bo" "bo@example.org" "pw").1 =
        { status := 302, body := .redirect "/login" } ∧
      (registerHandler sampleEnv accountDb "Bo" "bo@example.org" "pw").2.users =
        [sampleAna,
          { _id := 101, name := "Bo", email := "bo@example.org", password := "hashed:pw",
            favorites := [] }] ∧
      (∃ u ∈ accountDb.users, u.email = "ana@example.org") ∧
      (registerHandler sampleEnv accountDb "Eve" "ana@example.org" "other").1 =
        { status := 400, body := .message "Email already exists. Please choose another." } ∧
      (registerHandler sampleEnv accountDb "Eve" "ana@example.org" "other").2.users =
        accountDb.users :=
  have hfree : ∀ u ∈ accountDb.users, u.email ≠ "bo@example.org" := by decide
  have hused : ∃ u ∈ accountDb.users, u.email = "ana@example.org" :=
    ⟨sampleAna, by decide, rfl⟩
  have hnew := (register_spec sampleEnv accountDb "Bo" "bo@example.org" "pw").2.1 hfree
    (by decide) (by decide) (by decide)
  have hdup := (register_spec sampleEnv accountDb "Eve" "ana@example.org" "other").1 hused
  ⟨hfree, congrArg Prod.fst hnew, congrArg (fun r => r.2.users) hnew, hused,
    congrArg Prod.fst hdup, congrArg (fun r => r.2.users) hdup⟩

/-- C12 as stated fails: no stored user has the email `bo@example.org`, yet a
registration with that email and an empty name persists nothing: the handler
answers 500 and the users are as before. -/
theorem register_empty_name_rejected :
    (∀ u ∈ accountDb.users, u.email ≠ "bo@example.org") ∧
      (registerHandler sampleEnv accountDb "" "bo@example.org" "pw").1 =
        { status := 500,
          body := .message "Failed to register user. Please try again later." } ∧
      (registerHandler sampleEnv accountDb "" "bo@example.org" "pw").2.users =
        accountDb.users := by
  decide

end LocalsApp
